import Mathlib

/-!
Verification development for the SEO content-brief backend
(`backend/main.py`, `backend/brief_worker.py`, `backend/schemas/models.py`).

The embedding is shallow: each job is a record mirroring the per-job dict of
`job_store`; every mutation the code performs on a job is an explicit event
(`Ev`), and a worker run is the list of events it performs in order, so the
observable intermediate states of a job are the left folds of that list.
External collaborators (the Serper search API, page fetching plus
BeautifulSoup extraction, the Anthropic client, markdown rendering and the
clock) are parameters gathered in an environment record; everything else is
translated directly from the Python source.
-/

/-- Job status strings used by the backend: "queued" | "running" | "complete" | "error". -/
inductive Status
  | queued
  | running
  | complete
  | error
deriving DecidableEq

/-- Returns true on the two terminal statuses, "complete" and "error". -/
def Status.isTerminal : Status → Bool
  | .complete => true
  | .error => true
  | _ => false

/-- One entry of `job_store`: the dict
`{ "status": ..., "progress": [...], "report_html": ..., "error": ... }`
created by the submission endpoints (all four keys always present). -/
structure Job where
  status : Status
  progress : List String
  report_html : Option String
  error : Option String
deriving DecidableEq

/-- The job dict as inserted by `start_research` / `start_content_brief`:
status "queued", empty progress, `report_html` and `error` both None. -/
def newJob : Job :=
  { status := .queued, progress := [], report_html := none, error := none }

/-- One mutation of a job entry performed by a worker:
a status assignment, a `_push` of a progress message, or an assignment of
`report_html` / `error`. -/
inductive Ev
  | setStatus (s : Status)
  | push (msg : String)
  | setReport (html : String)
  | setError (msg : String)
deriving DecidableEq

/-- Applies one mutation to a job entry. `push` models `_push`, which appends
to the progress list of an existing entry (the entry always exists here:
jobs are never deleted). -/
def applyEv : Job → Ev → Job
  | j, .setStatus s => { j with status := s }
  | j, .push m => { j with progress := j.progress ++ [m] }
  | j, .setReport h => { j with report_html := some h }
  | j, .setError e => { j with error := some e }

/-- State of a job after the first `k` events of a run, starting from `j`. -/
def jobFrom (j : Job) (evs : List Ev) (k : Nat) : Job :=
  (evs.take k).foldl applyEv j

/-- State of a freshly created job after the first `k` events of a run.
These are exactly the states a concurrent reader of `job_store` can observe. -/
def jobAfter (evs : List Ev) (k : Nat) : Job :=
  jobFrom newJob evs k

/-- State of a freshly created job after the whole run. -/
def finalJob (evs : List Ev) : Job :=
  evs.foldl applyEv newJob

/-- Characters stripped by Python `str.strip()` with no argument
(ASCII whitespace: space, tab, LF, VT, FF, CR). -/
def pyIsSpace (c : Char) : Bool :=
  c = ' ' || c.toNat = 9 || c.toNat = 10 || c.toNat = 11 || c.toNat = 12 || c.toNat = 13

/-- Python `str.strip()`: drops leading and trailing whitespace. -/
def pyStrip (s : String) : String :=
  String.mk (((s.data.dropWhile pyIsSpace).reverse.dropWhile pyIsSpace).reverse)

/-- Escape of one character as performed by Python `html.escape`
(quote=True: `&`, `<`, `>`, `"` (34) and the apostrophe (39)). -/
def escChar (c : Char) : String :=
  if c = '&' then "&amp;"
  else if c = '<' then "&lt;"
  else if c = '>' then "&gt;"
  else if c.toNat = 34 then "&quot;"
  else if c.toNat = 39 then "&#x27;"
  else String.singleton c

/-- Python `html.escape(s)` (quote=True, the default used by the source). -/
def htmlEscape (s : String) : String :=
  String.join (s.data.map escChar)

/-- Boolean string prefix test (Python `str.startswith`), computed on the
underlying character lists. -/
def strStarts (p s : String) : Bool :=
  p.data.isPrefixOf s.data

/-- One organic result of the Serper response, as consumed by the worker:
the worker reads `result.get("link", "")` and `result.get("title", ...)`,
so both fields may be absent. -/
structure SearchResult where
  link : Option String
  title : Option String
deriving DecidableEq

/-- Outcome of a successful fetch-and-extract of one page: the page title
(`h1`/`.title`/`.post-title` text truncated to 120 chars, or the fallback)
and the extracted main-content text truncated to 800 chars. The HTTP client
and the BeautifulSoup selector chain are external collaborators; the worker
only consumes these two strings. -/
structure FetchedPage where
  page_title : String
  content_text : String
deriving DecidableEq

/-- External collaborators of `run_content_brief`, one field per outside
interaction performed by the worker:
`serper_api_key` is `os.getenv("SERPER_API_KEY", "")`;
`anthropic_api_key` is `os.getenv("ANTHROPIC_API_KEY")` (None when unset);
`serper_search kw` is the POST to google.serper.dev plus
`resp.json().get("organic", [])` (error = the exception text on a raised
status or transport failure);
`fetch i url` is the page GET plus extraction for rank `i`
(error = the exception text, which makes the worker skip that page);
`claude prompt` is `ac.messages.create(...)` plus `message.content[0].text`;
`markdown` is `markdown.markdown(.., extensions=["extra", "nl2br"])`;
`now_ts` is the formatted UTC timestamp. -/
structure Env where
  serper_api_key : String
  anthropic_api_key : Option String
  serper_search : String → Except String (List SearchResult)
  fetch : Nat → String → Except String FetchedPage
  claude : String → Except String String
  markdown : String → String
  now_ts : String

/-- One row of `competitor_data`, as appended by the fetch loop of
`run_content_brief` (dict with keys position, url, title, content). -/
structure Competitor where
  position : Nat
  url : String
  title : String
  content : String
deriving DecidableEq

/-- Body of one iteration of the fetch loop of `run_content_brief`
(brief_worker.py lines 56-101) for the rank-`i` result out of `n`:
returns the progress messages it pushes and the `competitor_data` row it
appends. On a fetch/extract failure the row gets the fallback title and
empty content. -/
def fetchPage (env : Env) (n i : Nat) (result : SearchResult) : List String × Competitor :=
  let url := result.link.getD ""
  let fallback_title := result.title.getD ("Page " ++ toString i)
  let fetchMsg := "[" ++ toString i ++ "/" ++ toString n ++ "] Fetching " ++ url.take 70 ++ "..."
  match env.fetch i url with
  | .ok page =>
      ([fetchMsg, "Extracted content from page " ++ toString i ++ ": " ++ page.page_title.take 50],
       { position := i, url := url, title := page.page_title, content := page.content_text })
  | .error exc =>
      ([fetchMsg, "Skipped page " ++ toString i ++ " (" ++ exc ++ ")"],
       { position := i, url := url, title := fallback_title, content := "" })

/-- The fetch loop `for i, result in enumerate(organic, 1)` of
`run_content_brief`, over the already-enumerated results: collects the
pushed progress messages and the `competitor_data` list in order. -/
def fetchPages (env : Env) (n : Nat) : List (Nat × SearchResult) → List String × List Competitor
  | [] => ([], [])
  | (i, r) :: rest =>
      let (ms, c) := fetchPage env n i r
      let (ms2, cs) := fetchPages env n rest
      (ms ++ ms2, c :: cs)

/-- The `comp_summary` string built by `run_content_brief` step 3: a header
plus one block per competitor row with non-empty content. -/
def compSummary (competitor_data : List Competitor) : String :=
  "COMPETITOR ANALYSIS:\n\n" ++
    String.join (competitor_data.map fun item =>
      if item.content = "" then ""
      else "Page " ++ toString item.position ++ ": " ++ item.title ++ "\n" ++
           "Content preview: " ++ item.content ++ "...\n\n")

/-- Fixed tail of the analysis prompt (the section instructions). -/
def promptTail : String :=
  "Based on this analysis, provide the following sections. Use proper Markdown formatting: ## for section headings, ### for sub-headings, and - for bullet points.\n\n## 1. Search Intent\nWhat are users actually looking for?\n\n## 2. Common Topics\nWhat do all top-ranking pages cover?\n\n## 3. Content Gaps\nWhat is missing from most articles?\n\n## 4. Recommended Structure\nList the headings and sections we should include.\n\n## 5. Word Count Target\nRecommended word count based on competitor analysis.\n\n## 6. Unique Angle\nHow can we stand out from competitors?\n\nBe specific and actionable."

/-- The fixed-shape prompt of `run_content_brief` step 3, embedding the
keyword and the composed competitor summary. -/
def briefPrompt (keyword comp_summary : String) : String :=
  "You are an expert SEO content strategist. Analyze the following competitor content for the keyword \"" ++
    keyword ++ "\" and create a detailed content brief.\n\n" ++ comp_summary ++ "\n" ++ promptTail

/-- One `<tr>` row of the Analyzed Competitors table of `_format_report`:
position, then the escaped url as a link labelled with the escaped
80-char-truncated title. -/
def compRow (c : Competitor) : String :=
  "<tr><td>" ++ toString c.position ++ "</td><td><a href=\"" ++ htmlEscape c.url ++
    "\" target=\"_blank\">" ++ htmlEscape (c.title.take 80) ++ "</a></td></tr>\n"

/-- Static segment of the report template up to the escaped keyword in the
page title (the `<style>` block is the report styling, reproduced from the
source with literal braces). -/
def reportPart1 : String :=
  "<!DOCTYPE html>\n<html lang=\"en\">\n<head>\n<meta charset=\"UTF-8\">\n<title>Content Brief: "

/-- Static segment of the report template between the title keyword and the
h1 keyword: the style block of the generated document. -/
def reportPart2 : String :=
  "</title>\n<style>\n  body \x7b\n    background: #f8fafc;\n    color: #1e293b;\n    font-family: \x27Segoe UI\x27, Arial, sans-serif;\n    padding: 2rem;\n    max-width: 860px;\n    margin: 0 auto;\n    line-height: 1.7;\n  \x7d\n  h1 \x7b color: #7c3aed; margin-bottom: 0.25rem; font-size: 1.6rem; \x7d\n  .meta \x7b color: #64748b; font-size: 0.85rem; margin-bottom: 2rem; \x7d\n\n  .brief-body \x7b background: white; border-radius: 8px; padding: 2rem 2.5rem;\n                 box-shadow: 0 1px 4px rgba(0,0,0,0.08); margin-bottom: 1.5rem; \x7d\n\n  h2 \x7b\n    color: #7c3aed;\n    font-size: 1.1rem;\n    font-weight: 700;\n    margin: 2rem 0 0.5rem;\n    padding-bottom: 0.3rem;\n    border-bottom: 2px solid #ede9fe;\n    text-transform: uppercase;\n    letter-spacing: 0.04em;\n  \x7d\n  h2:first-child \x7b margin-top: 0; \x7d\n\n  h3 \x7b\n    color: #4c1d95;\n    font-size: 0.95rem;\n    font-weight: 600;\n    margin: 1rem 0 0.3rem;\n  \x7d\n\n  p \x7b margin: 0.5rem 0; \x7d\n\n  ul, ol \x7b\n    padding-left: 1.5rem;\n    margin: 0.4rem 0 0.8rem;\n  \x7d\n  li \x7b margin: 0.3rem 0; \x7d\n\n  strong \x7b color: #0f172a; \x7d\n\n  .competitors \x7b\n    background: white;\n    border-radius: 8px;\n    padding: 1.5rem 2rem;\n    box-shadow: 0 1px 4px rgba(0,0,0,0.08);\n  \x7d\n  .competitors h2 \x7b margin-top: 0; \x7d\n  table \x7b width: 100%; border-collapse: collapse; font-size: 0.88rem; \x7d\n  th \x7b text-align: left; padding: 0.5rem 0.75rem; background: #f1f5f9; color: #475569; \x7d\n  td \x7b padding: 0.5rem 0.75rem; border-top: 1px solid #e2e8f0; \x7d\n  a \x7b color: #7c3aed; text-decoration: none; \x7d\n  a:hover \x7b text-decoration: underline; \x7d\n</style>\n</head>\n<body>\n<h1>Content Brief: "

/-- Static segment of the report template between the h1 keyword and the
generation timestamp. -/
def reportPart3 : String :=
  "</h1>\n<div class=\"meta\">\n  Generated "

/-- Static segment of the report template between the timestamp and the
competitor count. -/
def reportPart4 : String :=
  " &nbsp;·&nbsp;\n  "

/-- Static segment of the report template between the competitor count and
the rendered brief body. -/
def reportPart5 : String :=
  " competitors analyzed &nbsp;·&nbsp;\n  Powered by Claude Sonnet 4.6\n</div>\n\n<div class=\"brief-body\">\n"

/-- Static segment of the report template between the brief body and the
competitor table rows. -/
def reportPart6 : String :=
  "\n</div>\n\n<div class=\"competitors\">\n  <h2>Analyzed Competitors</h2>\n  <table>\n    <thead><tr><th>#</th><th>Page</th></tr></thead>\n    <tbody>"

/-- Static closing segment of the report template. -/
def reportPart7 : String :=
  "</tbody>\n  </table>\n</div>\n</body>\n</html>"

/-- The `_format_report` HTML formatter of brief_worker.py: renders the brief
text through the markdown collaborator and assembles the final document,
including one `compRow` per competitor in the Analyzed Competitors table. -/
def _format_report (env : Env) (keyword brief_text : String) (competitors : List Competitor) : String :=
  let ts := env.now_ts
  let brief_html := env.markdown brief_text
  let comp_rows := String.join (competitors.map compRow)
  reportPart1 ++ htmlEscape keyword ++ reportPart2 ++ htmlEscape keyword ++ reportPart3 ++
    ts ++ reportPart4 ++ toString competitors.length ++ reportPart5 ++ brief_html ++
    reportPart6 ++ comp_rows ++ reportPart7

/-- Modelled from the anthropic SDK (external collaborator): constructing
`anthropic.Anthropic(api_key=None)` raises with this message when no API key
is configured, which is the failure surfaced when ANTHROPIC_API_KEY is not
set in the environment. -/
def anthropicNoKeyMsg : String :=
  "The api_key client option must be set either by passing api_key to the client or by setting the ANTHROPIC_API_KEY environment variable"

/-- The try-block of `run_content_brief` (brief_worker.py lines 25-152):
returns, in order, the progress messages it pushes, together with either the
rendered report (success) or the text of the exception it raises (failure).
The except-handler of the worker turns the failure case into the terminal
error events. -/
def briefBody (env : Env) (keyword : String) : List String × Except String String :=
  let m0 := "Starting content brief for: " ++ keyword
  if env.serper_api_key = "" then
    ([m0], .error "SERPER_API_KEY is not set in environment")
  else
    let m1 := "Searching Google via Serper API..."
    match env.serper_search keyword with
    | .error e => ([m0, m1], .error e)
    | .ok search_data =>
      let organic := search_data.take 5
      if organic.isEmpty then
        ([m0, m1], .error "No organic search results returned by Serper")
      else
        let n := organic.length
        let m2 := "Found " ++ toString n ++ " results — fetching competitor pages..."
        let (fetchMsgs, competitor_data) := fetchPages env n (organic.enumFrom 1)
        let m3 := "Building competitor analysis prompt..."
        let prompt := briefPrompt keyword (compSummary competitor_data)
        let m4 := "Sending to Claude for content brief analysis..."
        match env.anthropic_api_key with
        | none => ([m0, m1, m2] ++ fetchMsgs ++ [m3, m4], .error anthropicNoKeyMsg)
        | some _ =>
          match env.claude prompt with
          | .error e => ([m0, m1, m2] ++ fetchMsgs ++ [m3, m4], .error e)
          | .ok brief_text =>
            let m5 := "Claude analysis complete — formatting report..."
            let report_html := _format_report env keyword brief_text competitor_data
            ([m0, m1, m2] ++ fetchMsgs ++ [m3, m4, m5], .ok report_html)

/-- The except-handler of `run_content_brief` (brief_worker.py lines 154-159):
status to "error", then the error field, then a final `_push` of the
exception text. -/
def failTail (exc : String) : List Ev :=
  [Ev.setStatus .error, Ev.setError exc, Ev.push ("ERROR: " ++ exc)]

/-- The last three mutations of the success path of `run_content_brief`
(brief_worker.py lines 150-152): `report_html`, then status "complete",
then a final `_push`. -/
def doneTail (report_html : String) : List Ev :=
  [Ev.setReport report_html, Ev.setStatus .complete, Ev.push "Content brief ready!"]

/-- The `run_content_brief` worker of brief_worker.py as the ordered list of
mutations it performs on its job entry: status to "running" first, then the
pushes of the try-block, closed by the success mutations or by the
except-handler. -/
def run_content_brief (env : Env) (keyword : String) : List Ev :=
  Ev.setStatus .running ::
    match briefBody env keyword with
    | (msgs, .error exc) => msgs.map Ev.push ++ failTail exc
    | (msgs, .ok report_html) => msgs.map Ev.push ++ doneTail report_html

/-- External collaborators of `_run_crew` in main.py: `crew_build` is
`build_seo_crew(...)` (which can raise before any step runs), `step_logs`
are the texts extracted by `_make_step_callback` from the agent step hook
during `crew.kickoff()` (each then truncated to 200 chars by the callback),
`kickoff` is the kickoff outcome projected to a string through
`result.raw` / `str(result)`, and `now_ts` is the formatted UTC timestamp. -/
structure CrewEnv where
  crew_build : Except String Unit
  step_logs : List String
  kickoff : Except String String
  now_ts : String

/-- Static head of the `_wrap_in_html` fallback template of main.py, up to
the escaped game name in the page title (style block with literal braces). -/
def wrapPart1 : String :=
  "<!DOCTYPE html>\n<html lang=\"en\">\n<head>\n<meta charset=\"UTF-8\">\n<title>SEO Report: "

/-- Static segment of the `_wrap_in_html` template between the title and the
h1 game name. -/
def wrapPart2 : String :=
  "</title>\n<style>\n  body \x7b background: #0f0f1a; color: #e2e8f0; font-family: sans-serif; padding: 2rem; \x7d\n  h1 \x7b color: #7c3aed; \x7d\n  pre \x7b white-space: pre-wrap; word-break: break-word; \x7d\n  footer \x7b margin-top: 2rem; color: #666; font-size: 0.8rem; \x7d\n</style>\n</head>\n<body>\n<h1>SEO Research Report: "

/-- Static segment of the `_wrap_in_html` template between the h1 and the
escaped content. -/
def wrapPart3 : String :=
  "</h1>\n<pre>"

/-- Static segment of the `_wrap_in_html` template between the content and
the timestamp. -/
def wrapPart4 : String :=
  "</pre>\n<footer>Generated "

/-- Static closing segment of the `_wrap_in_html` template. -/
def wrapPart5 : String :=
  "</footer>\n</body>\n</html>"

/-- The `_wrap_in_html` fallback of main.py: escapes the plain-text report,
turns newlines into `<br>`, and wraps it in the styled page. -/
def _wrap_in_html (ts : String) (content game_name : String) : String :=
  let escaped := (htmlEscape content).replace "\n" "<br>"
  wrapPart1 ++ htmlEscape game_name ++ wrapPart2 ++ htmlEscape game_name ++ wrapPart3 ++
    escaped ++ wrapPart4 ++ ts ++ wrapPart5

/-- The try-block of `_run_crew` after the initial push and status change
(main.py lines 76-96): builds the crew (which can raise), pushes the
assembled message, runs kickoff (during which the step callback pushes its
truncated logs), and on success wraps the result in HTML when it does not
already start with "<!". Returns the pushed messages and either the report
or the exception text. -/
def crewBody (env : CrewEnv) (game_name : String) : List String × Except String String :=
  match env.crew_build with
  | .error e => ([], .error e)
  | .ok _ =>
    let msgs := "Crew assembled — running SEO Keyword Agent..." ::
      env.step_logs.map (fun m => m.take 200)
    match env.kickoff with
    | .error e => (msgs, .error e)
    | .ok report0 =>
      let report_html :=
        if strStarts "<!" (pyStrip report0) then report0
        else _wrap_in_html env.now_ts report0 game_name
      (msgs, .ok report_html)

/-- The `_run_crew` worker of main.py as the ordered list of mutations it
performs on its job entry: push of the starting message, status to
"running", the try-block pushes, then the success mutations
(`report_html`, status "complete", push "Research complete!") or the
except-handler (status "error", the error field, push of the exception). -/
def _run_crew (env : CrewEnv) (game_name : String) : List Ev :=
  Ev.push ("Starting research for: " ++ game_name) :: Ev.setStatus .running ::
    match crewBody env game_name with
    | (msgs, .error exc) => msgs.map Ev.push ++ failTail exc
    | (msgs, .ok report_html) =>
        msgs.map Ev.push ++
          [Ev.setReport report_html, Ev.setStatus .complete, Ev.push "Research complete!"]

/-- The `ResearchRequest` body schema of schemas/models.py: one required
string field `game_name`. -/
structure ResearchRequest where
  game_name : String

/-- The `ContentBriefRequest` body schema of schemas/models.py: one required
string field `keyword`, and no other field. -/
structure ContentBriefRequest where
  keyword : String

/-- Models the pydantic attribute access `request.competitor_urls` performed
by `start_content_brief` (main.py line 245): `ContentBriefRequest` declares
only `keyword`, and pydantic raises AttributeError when an undeclared
attribute is read on a model instance, so this access always raises. -/
def ContentBriefRequest.competitor_urls (_ : ContentBriefRequest) :
    Except String (Option (List String)) :=
  .error "ContentBriefRequest object has no attribute competitor_urls"

/-- The fault channel of a submission endpoint: an `HTTPException(code,
detail)` deliberately raised by the handler, or an ordinary Python exception
escaping the handler (surfaced by the framework as a 500 response). -/
inductive Fault
  | http (status_code : Nat) (detail : String)
  | attributeError (msg : String)
deriving DecidableEq

/-- A detached worker thread started by a submission endpoint, recorded as
its target and arguments. -/
inductive SpawnedTask
  | runCrew (job_id game_name : String)
  | runContentBrief (job_id keyword : String)
deriving DecidableEq

/-- The `job_store` module dict: job id to job entry, in insertion order. -/
abbrev Store := List (String × Job)

/-- Everything observable about one call of a submission endpoint: the store
after the call (mutations persist even when the handler raises), the thread
it spawned, and its response (the job id, or the fault). -/
structure EndpointResult where
  store : Store
  spawned : Option SpawnedTask
  response : Except Fault String

/-- The `POST /api/research` handler `start_research` of main.py:
strips the game name, rejects an empty result with a 422, otherwise inserts
a fresh queued job under the generated uuid, spawns `_run_crew` detached and
returns the job id. `fresh_uuid` stands for `str(uuid.uuid4())`. -/
def start_research (store : Store) (fresh_uuid : String) (request : ResearchRequest) :
    EndpointResult :=
  let game_name := pyStrip request.game_name
  if game_name = "" then
    { store := store, spawned := none,
      response := .error (.http 422 "game_name cannot be empty") }
  else
    let job_id := fresh_uuid
    { store := store ++ [(job_id, newJob)],
      spawned := some (.runCrew job_id game_name),
      response := .ok job_id }

/-- The `POST /api/content-brief` handler `start_content_brief` of main.py:
strips the keyword, rejects an empty result with a 422, otherwise inserts a
fresh queued job under "brief-" plus the generated uuid and then builds the
thread arguments, which reads `request.competitor_urls` and therefore
raises AttributeError before any thread is constructed; the inserted job
stays in the store. (Were the attribute present, the spawned thread would
still call the three-parameter `run_content_brief` with four arguments.) -/
def start_content_brief (store : Store) (fresh_uuid : String) (request : ContentBriefRequest) :
    EndpointResult :=
  let keyword := pyStrip request.keyword
  if keyword = "" then
    { store := store, spawned := none,
      response := .error (.http 422 "keyword cannot be empty") }
  else
    let job_id := "brief-" ++ fresh_uuid
    let store2 := store ++ [(job_id, newJob)]
    match request.competitor_urls with
    | .error msg =>
        { store := store2, spawned := none, response := .error (.attributeError msg) }
    | .ok _ =>
        { store := store2, spawned := some (.runContentBrief job_id keyword),
          response := .ok job_id }

/-- One server-sent event as produced by the stream endpoints of main.py.
The complete payload is the `report_html` value serialized by the endpoint
(the json wrapping is kept abstract); the error payload is the job's error
field, or the literal "Job not found" text. Both fields are read with
`.get`, whose defaults never fire because every job entry carries all four
keys. -/
inductive SSE
  | progress (data : String)
  | complete (data : Option String)
  | error (data : Option String)
  | heartbeat
deriving DecidableEq

/-- The `event_generator` loop of `stream_research` (main.py lines 163-199),
run against the per-tick store lookups `history` (one `job_store.get(job_id)`
snapshot per iteration of the while loop, the stream being truncated when
`history` ends): forwards new progress entries past `last_idx`, then on a
terminal status emits the single closing event and returns; otherwise
counts up to the 15-tick heartbeat and sleeps into the next iteration. -/
def stream_research_gen : List (Option Job) → Nat → Nat → List SSE
  | [], _, _ => []
  | none :: _, _, _ => [SSE.error (some "Job not found")]
  | some job :: rest, last_idx, heartbeat_counter =>
      let progressEvs := (job.progress.drop last_idx).map SSE.progress
      let last_idx2 := max last_idx job.progress.length
      match job.status with
      | .complete => progressEvs ++ [SSE.complete job.report_html]
      | .error => progressEvs ++ [SSE.error job.error]
      | _ =>
          let hb := heartbeat_counter + 1
          if 15 ≤ hb then
            progressEvs ++ SSE.heartbeat :: stream_research_gen rest last_idx2 0
          else
            progressEvs ++ stream_research_gen rest last_idx2 hb

/-- The `event_generator` loop of `stream_content_brief` (main.py lines
258-289), under the same reading of the store history as
`stream_research_gen`. -/
def stream_content_brief_gen : List (Option Job) → Nat → Nat → List SSE
  | [], _, _ => []
  | none :: _, _, _ => [SSE.error (some "Job not found")]
  | some job :: rest, last_idx, heartbeat_counter =>
      let progressEvs := (job.progress.drop last_idx).map SSE.progress
      let last_idx2 := max last_idx job.progress.length
      match job.status with
      | .complete => progressEvs ++ [SSE.complete job.report_html]
      | .error => progressEvs ++ [SSE.error job.error]
      | _ =>
          let hb := heartbeat_counter + 1
          if 15 ≤ hb then
            progressEvs ++ SSE.heartbeat :: stream_content_brief_gen rest last_idx2 0
          else
            progressEvs ++ stream_content_brief_gen rest last_idx2 hb

/-- Extracts the message of a `_push` event. -/
def evPushMsg : Ev → Option String
  | .push m => some m
  | _ => none

/-- The progress messages pushed during a run, in order. -/
def pushedMsgs (evs : List Ev) : List String :=
  evs.filterMap evPushMsg

/-- Recognizes a "complete" stream event. -/
def SSE.isComplete : SSE → Bool
  | .complete _ => true
  | _ => false

/-- Recognizes a "heartbeat" stream event. -/
def SSE.isHeartbeat : SSE → Bool
  | .heartbeat => true
  | _ => false

theorem pushFold (ms : List String) : ∀ (j : Job),
    (ms.map Ev.push).foldl applyEv j = { j with progress := j.progress ++ ms } := by
  induction ms with
  | nil => intro j; simp
  | cons m rest ih =>
      intro j
      simp only [List.map_cons, List.foldl_cons, applyEv, ih]
      simp

theorem pushedMsgs_map_push (ms : List String) : pushedMsgs (ms.map Ev.push) = ms := by
  induction ms with
  | nil => rfl
  | cons m rest ih => simpa [pushedMsgs, evPushMsg] using ih

theorem pushedMsgs_append (a b : List Ev) :
    pushedMsgs (a ++ b) = pushedMsgs a ++ pushedMsgs b := by
  simp [pushedMsgs]

theorem applyEv_progress_isPre (j : Job) (e : Ev) :
    j.progress <+: (applyEv j e).progress := by
  cases e <;> simp [applyEv]

theorem jobFrom_zero (j : Job) (evs : List Ev) : jobFrom j evs 0 = j := rfl

theorem jobFrom_succ (j : Job) (evs : List Ev) (k : Nat) :
    jobFrom j evs (k + 1) =
      match evs[k]? with
      | none => jobFrom j evs k
      | some e => applyEv (jobFrom j evs k) e := by
  unfold jobFrom
  rw [List.take_succ, List.foldl_append]
  cases evs[k]? <;> simp

theorem jobFrom_progress_step (j : Job) (evs : List Ev) (k : Nat) :
    (jobFrom j evs k).progress <+: (jobFrom j evs (k + 1)).progress := by
  rw [jobFrom_succ]
  cases evs[k]? with
  | none => exact List.prefix_refl _
  | some e => exact applyEv_progress_isPre _ e

theorem jobAfter_append_le (evs tail : List Ev) (k : Nat) (h : k ≤ evs.length) :
    jobAfter (evs ++ tail) k = jobAfter evs k := by
  unfold jobAfter jobFrom
  rw [List.take_append_of_le_length h]

theorem jobAfter_append_add (evs tail : List Ev) (d : Nat) :
    jobAfter (evs ++ tail) (evs.length + d) = jobFrom (finalJob evs) tail d := by
  unfold jobAfter jobFrom finalJob
  rw [List.take_append, List.foldl_append]

theorem jobAfter_of_length_le (evs : List Ev) (k : Nat) (h : evs.length ≤ k) :
    jobAfter evs k = finalJob evs := by
  unfold jobAfter jobFrom finalJob
  rw [List.take_of_length_le h]

theorem jobFrom_statusPush (j : Job) (s : Status) (ms : List String) (k : Nat) :
    jobFrom j (Ev.setStatus s :: ms.map Ev.push) (k + 1) =
      { j with status := s, progress := j.progress ++ ms.take k } := by
  unfold jobFrom
  rw [List.take_succ_cons, List.foldl_cons, ← List.map_take]
  show (List.map Ev.push (ms.take k)).foldl applyEv { j with status := s } = _
  rw [pushFold]

theorem finalJob_statusPush (j : Job) (s : Status) (ms : List String) :
    (Ev.setStatus s :: ms.map Ev.push).foldl applyEv j =
      { j with status := s, progress := j.progress ++ ms } := by
  rw [List.foldl_cons]
  show (List.map Ev.push ms).foldl applyEv { j with status := s } = _
  rw [pushFold]

theorem foldl_shape_fail (j : Job) (ms : List String) (e : String) :
    (Ev.setStatus .running :: ms.map Ev.push ++ failTail e).foldl applyEv j =
      { status := .error, progress := j.progress ++ ms ++ ["ERROR: " ++ e],
        report_html := j.report_html, error := some e } := by
  rw [show Ev.setStatus Status.running :: ms.map Ev.push ++ failTail e =
        (Ev.setStatus Status.running :: ms.map Ev.push) ++ failTail e from rfl,
      List.foldl_append, finalJob_statusPush]
  simp [failTail, applyEv, List.append_assoc]

theorem foldl_shape_done (j : Job) (ms : List String) (r lastMsg : String) :
    (Ev.setStatus .running :: ms.map Ev.push ++
        [Ev.setReport r, Ev.setStatus .complete, Ev.push lastMsg]).foldl applyEv j =
      { status := .complete, progress := j.progress ++ ms ++ [lastMsg],
        report_html := some r, error := j.error } := by
  rw [show Ev.setStatus Status.running :: ms.map Ev.push ++
        [Ev.setReport r, Ev.setStatus .complete, Ev.push lastMsg] =
        (Ev.setStatus Status.running :: ms.map Ev.push) ++
          [Ev.setReport r, Ev.setStatus .complete, Ev.push lastMsg] from rfl,
      List.foldl_append, finalJob_statusPush]
  simp [applyEv, List.append_assoc]

/-- The `competitor_data` list accumulated by `run_content_brief` when the
search collaborator returns the organic list `l`. -/
def briefCompetitorData (env : Env) (l : List SearchResult) : List Competitor :=
  (fetchPages env (l.take 5).length ((l.take 5).enumFrom 1)).2

/-- The progress messages pushed by the fetch loop of `run_content_brief`
when the search collaborator returns the organic list `l`. -/
def briefFetchMsgs (env : Env) (l : List SearchResult) : List String :=
  (fetchPages env (l.take 5).length ((l.take 5).enumFrom 1)).1

theorem take5_ne_nil {l : List SearchResult} (hl : l ≠ []) : l.take 5 ≠ [] := by
  intro h
  rcases List.take_eq_nil_iff.mp h with h5 | h0
  · exact absurd h5 (by decide)
  · exact hl h0

theorem take5_isEmpty_false {l : List SearchResult} (hl : l ≠ []) :
    (l.take 5).isEmpty = false := by
  cases hE : (l.take 5).isEmpty
  · rfl
  · exact absurd (List.isEmpty_iff.mp hE) (take5_ne_nil hl)

theorem briefBody_noKey (env : Env) (kw : String) (hk : env.serper_api_key = "") :
    briefBody env kw =
      (["Starting content brief for: " ++ kw],
       .error "SERPER_API_KEY is not set in environment") := by
  unfold briefBody
  rw [if_pos hk]

theorem briefBody_searchFail (env : Env) (kw e : String)
    (hk : ¬ env.serper_api_key = "") (hs : env.serper_search kw = .error e) :
    briefBody env kw =
      (["Starting content brief for: " ++ kw, "Searching Google via Serper API..."],
       .error e) := by
  unfold briefBody
  rw [if_neg hk, hs]

theorem briefBody_noResults (env : Env) (kw : String)
    (hk : ¬ env.serper_api_key = "") (hs : env.serper_search kw = .ok []) :
    briefBody env kw =
      (["Starting content brief for: " ++ kw, "Searching Google via Serper API..."],
       .error "No organic search results returned by Serper") := by
  unfold briefBody
  rw [if_neg hk, hs]
  rfl

theorem briefBody_noAnthropic (env : Env) (kw : String) (l : List SearchResult)
    (hk : ¬ env.serper_api_key = "") (hs : env.serper_search kw = .ok l)
    (hl : l ≠ []) (ha : env.anthropic_api_key = none) :
    briefBody env kw =
      (["Starting content brief for: " ++ kw, "Searching Google via Serper API...",
        "Found " ++ toString (l.take 5).length ++ " results — fetching competitor pages..."]
        ++ briefFetchMsgs env l ++
        ["Building competitor analysis prompt...",
         "Sending to Claude for content brief analysis..."],
       .error anthropicNoKeyMsg) := by
  unfold briefBody
  rw [if_neg hk, hs]
  simp only [take5_isEmpty_false hl, Bool.false_eq_true, if_false, ha]
  rfl

theorem briefBody_claudeFail (env : Env) (kw : String) (l : List SearchResult) (a e : String)
    (hk : ¬ env.serper_api_key = "") (hs : env.serper_search kw = .ok l)
    (hl : l ≠ []) (ha : env.anthropic_api_key = some a)
    (hc : env.claude (briefPrompt kw (compSummary (briefCompetitorData env l))) = .error e) :
    briefBody env kw =
      (["Starting content brief for: " ++ kw, "Searching Google via Serper API...",
        "Found " ++ toString (l.take 5).length ++ " results — fetching competitor pages..."]
        ++ briefFetchMsgs env l ++
        ["Building competitor analysis prompt...",
         "Sending to Claude for content brief analysis..."],
       .error e) := by
  unfold briefBody
  rw [if_neg hk, hs]
  simp only [take5_isEmpty_false hl, Bool.false_eq_true, if_false, ha]
  show (match env.claude (briefPrompt kw (compSummary (briefCompetitorData env l))) with
        | .error e => _ | .ok brief_text => _) = _
  rw [hc]
  rfl

theorem briefBody_claudeOk (env : Env) (kw : String) (l : List SearchResult) (a txt : String)
    (hk : ¬ env.serper_api_key = "") (hs : env.serper_search kw = .ok l)
    (hl : l ≠ []) (ha : env.anthropic_api_key = some a)
    (hc : env.claude (briefPrompt kw (compSummary (briefCompetitorData env l))) = .ok txt) :
    briefBody env kw =
      (["Starting content brief for: " ++ kw, "Searching Google via Serper API...",
        "Found " ++ toString (l.take 5).length ++ " results — fetching competitor pages..."]
        ++ briefFetchMsgs env l ++
        ["Building competitor analysis prompt...",
         "Sending to Claude for content brief analysis...",
         "Claude analysis complete — formatting report..."],
       .ok (_format_report env kw txt (briefCompetitorData env l))) := by
  unfold briefBody
  rw [if_neg hk, hs]
  simp only [take5_isEmpty_false hl, Bool.false_eq_true, if_false, ha]
  show (match env.claude (briefPrompt kw (compSummary (briefCompetitorData env l))) with
        | .error e => _ | .ok brief_text => _) = _
  rw [hc]
  rfl

theorem isPrefixOf_append_left (l1 l2 l3 : List Char) (h : l1.length ≤ l2.length) :
    l1.isPrefixOf (l2 ++ l3) = l1.isPrefixOf l2 := by
  cases hp : l1.isPrefixOf l2 with
  | true =>
      rw [List.isPrefixOf_iff_prefix] at hp ⊢
      exact hp.trans (l2.prefix_append l3)
  | false =>
      cases hq : l1.isPrefixOf (l2 ++ l3) with
      | false => rfl
      | true =>
          rw [List.isPrefixOf_iff_prefix] at hq
          have h1 : l1 = (l2 ++ l3).take l1.length := List.prefix_iff_eq_take.mp hq
          rw [List.take_append_of_le_length h] at h1
          have h2 : l1 <+: l2 := h1 ▸ List.take_prefix l1.length l2
          rw [← List.isPrefixOf_iff_prefix, hp] at h2
          exact absurd h2 (by simp)

theorem isPrefixOf_append_false (l1 l2 l3 : List Char)
    (h1 : l1.isPrefixOf l2 = false) (h2 : l2.isPrefixOf l1 = false) :
    l1.isPrefixOf (l2 ++ l3) = false := by
  cases hq : l1.isPrefixOf (l2 ++ l3) with
  | false => rfl
  | true =>
      rw [List.isPrefixOf_iff_prefix] at hq
      have hp2 : l2 <+: l2 ++ l3 := l2.prefix_append l3
      rcases List.prefix_or_prefix_of_prefix hq hp2 with hc | hc
      · rw [← List.isPrefixOf_iff_prefix, h1] at hc
        exact absurd hc (by simp)
      · rw [← List.isPrefixOf_iff_prefix, h2] at hc
        exact absurd hc (by simp)

theorem strStarts_prepend (p a b : String) (h : p.length ≤ a.length) :
    strStarts p (a ++ b) = strStarts p a := by
  unfold strStarts
  rw [String.data_append]
  exact isPrefixOf_append_left _ _ _ h

theorem strStarts_append_false (p a b : String)
    (h1 : strStarts p a = false) (h2 : strStarts a p = false) :
    strStarts p (a ++ b) = false := by
  unfold strStarts at h1 h2 ⊢
  rw [String.data_append]
  exact isPrefixOf_append_false _ _ _ h1 h2

theorem fetchNote_starts (i n : Nat) (u : String) :
    strStarts "[" ("[" ++ toString i ++ "/" ++ toString n ++ "] Fetching " ++ u ++ "...") = true := by
  simp only [String.append_assoc]
  rw [strStarts_prepend _ _ _ (by decide)]
  decide

theorem extractNote_not_fetchNote (i : Nat) (t : String) :
    strStarts "[" ("Extracted content from page " ++ toString i ++ ": " ++ t) = false := by
  simp only [String.append_assoc]
  exact strStarts_append_false _ _ _ (by decide) (by decide)

theorem skipNote_not_fetchNote (i : Nat) (e : String) :
    strStarts "[" ("Skipped page " ++ toString i ++ " (" ++ e ++ ")") = false := by
  simp only [String.append_assoc]
  exact strStarts_append_false _ _ _ (by decide) (by decide)

theorem skipNote_starts (i : Nat) (e : String) :
    strStarts "Skipped page " ("Skipped page " ++ toString i ++ " (" ++ e ++ ")") = true := by
  simp only [String.append_assoc]
  rw [strStarts_prepend _ _ _ (by decide)]
  decide

theorem fetchNote_not_skipNote (i n : Nat) (u : String) :
    strStarts "Skipped page " ("[" ++ toString i ++ "/" ++ toString n ++ "] Fetching " ++ u ++ "...") = false := by
  simp only [String.append_assoc]
  exact strStarts_append_false _ _ _ (by decide) (by decide)

theorem extractNote_not_skipNote (i : Nat) (t : String) :
    strStarts "Skipped page " ("Extracted content from page " ++ toString i ++ ": " ++ t) = false := by
  simp only [String.append_assoc]
  exact strStarts_append_false _ _ _ (by decide) (by decide)

theorem startNote_not_skipNote (kw : String) :
    strStarts "Skipped page " ("Starting content brief for: " ++ kw) = false :=
  strStarts_append_false _ _ _ (by decide) (by decide)

theorem errorNote_not_skipNote (e : String) :
    strStarts "Skipped page " ("ERROR: " ++ e) = false :=
  strStarts_append_false _ _ _ (by decide) (by decide)

theorem foundNote_not_skipNote (s : String) :
    strStarts "Skipped page " ("Found " ++ s) = false :=
  strStarts_append_false _ _ _ (by decide) (by decide)

theorem startNote_not_fetchNote (kw : String) :
    strStarts "[" ("Starting content brief for: " ++ kw) = false :=
  strStarts_append_false _ _ _ (by decide) (by decide)

theorem errorNote_not_fetchNote (e : String) :
    strStarts "[" ("ERROR: " ++ e) = false :=
  strStarts_append_false _ _ _ (by decide) (by decide)

theorem foundNote_not_fetchNote (s : String) :
    strStarts "[" ("Found " ++ s) = false :=
  strStarts_append_false _ _ _ (by decide) (by decide)

theorem countP_fetchNotes (env : Env) (n : Nat) : ∀ items : List (Nat × SearchResult),
    ((fetchPages env n items).1).countP (fun m => strStarts "[" m) = items.length := by
  intro items
  induction items with
  | nil => rfl
  | cons p rest ih =>
      obtain ⟨i, r⟩ := p
      cases hf : env.fetch i (r.link.getD "") with
      | ok page =>
          simp [fetchPages, fetchPage, hf, List.countP_append, ih, List.countP_cons,
            fetchNote_starts, extractNote_not_fetchNote]
      | error exc =>
          simp [fetchPages, fetchPage, hf, List.countP_append, ih, List.countP_cons,
            fetchNote_starts, skipNote_not_fetchNote]

theorem countP_skipNotes (env : Env) (n : Nat) : ∀ items : List (Nat × SearchResult),
    ((fetchPages env n items).1).countP (fun m => strStarts "Skipped page " m) =
      items.countP (fun p => !(env.fetch p.1 (p.2.link.getD "")).isOk) := by
  intro items
  induction items with
  | nil => rfl
  | cons p rest ih =>
      obtain ⟨i, r⟩ := p
      cases hf : env.fetch i (r.link.getD "") with
      | ok page =>
          simp [fetchPages, fetchPage, hf, List.countP_append, ih, List.countP_cons,
            fetchNote_not_skipNote, extractNote_not_skipNote, Except.isOk, Except.toBool]
      | error exc =>
          simp [fetchPages, fetchPage, hf, List.countP_append, ih, List.countP_cons,
            fetchNote_not_skipNote, skipNote_starts, Except.isOk, Except.toBool]

theorem fetchPages_positions (env : Env) (n : Nat) : ∀ items : List (Nat × SearchResult),
    ((fetchPages env n items).2).map (fun c => c.position) = items.map Prod.fst := by
  intro items
  induction items with
  | nil => rfl
  | cons p rest ih =>
      obtain ⟨i, r⟩ := p
      cases hf : env.fetch i (r.link.getD "") with
      | ok page => simp only [fetchPages, fetchPage, hf, List.map_cons, ih]
      | error exc => simp only [fetchPages, fetchPage, hf, List.map_cons, ih]

theorem fetchPages_failContent (env : Env) (n : Nat) : ∀ items : List (Nat × SearchResult),
    ∀ c ∈ (fetchPages env n items).2, (env.fetch c.position c.url).isOk = false → c.content = "" := by
  intro items
  induction items with
  | nil => intro c hc; simp [fetchPages] at hc
  | cons p rest ih =>
      obtain ⟨i, r⟩ := p
      intro c hc hbad
      cases hf : env.fetch i (r.link.getD "") with
      | ok page =>
          simp only [fetchPages, fetchPage, hf, List.mem_cons] at hc
          rcases hc with rfl | hc
          · simp [hf, Except.isOk, Except.toBool] at hbad
          · exact ih c hc hbad
      | error exc =>
          simp only [fetchPages, fetchPage, hf, List.mem_cons] at hc
          rcases hc with rfl | hc
          · rfl
          · exact ih c hc hbad

theorem run_content_brief_shape (env : Env) (kw : String) :
    ∃ ms : List String,
      (∃ e, run_content_brief env kw =
          (Ev.setStatus .running :: ms.map Ev.push) ++ failTail e) ∨
      (∃ r, run_content_brief env kw =
          (Ev.setStatus .running :: ms.map Ev.push) ++ doneTail r) := by
  cases h : briefBody env kw with
  | mk ms out =>
      cases out with
      | error e =>
          refine ⟨ms, .inl ⟨e, ?_⟩⟩
          unfold run_content_brief
          rw [h]
          rfl
      | ok r =>
          refine ⟨ms, .inr ⟨r, ?_⟩⟩
          unfold run_content_brief
          rw [h]
          rfl

theorem finalJob_shape_fail (ms : List String) (e : String) :
    finalJob ((Ev.setStatus .running :: ms.map Ev.push) ++ failTail e) =
      { status := .error, progress := ms ++ ["ERROR: " ++ e],
        report_html := none, error := some e } := by
  show (Ev.setStatus .running :: ms.map Ev.push ++ failTail e).foldl applyEv newJob = _
  rw [foldl_shape_fail]
  rfl

theorem finalJob_shape_done (ms : List String) (r : String) :
    finalJob ((Ev.setStatus .running :: ms.map Ev.push) ++ doneTail r) =
      { status := .complete, progress := ms ++ ["Content brief ready!"],
        report_html := some r, error := none } := by
  show (Ev.setStatus .running :: ms.map Ev.push ++
      [Ev.setReport r, Ev.setStatus .complete, Ev.push "Content brief ready!"]).foldl applyEv newJob = _
  rw [foldl_shape_done]
  rfl

theorem jobAfter_shape_fail (ms : List String) (e : String) (k : Nat) :
    jobAfter ((Ev.setStatus .running :: ms.map Ev.push) ++ failTail e) k =
      if k = 0 then newJob
      else if k ≤ ms.length + 1 then
        { status := .running, progress := ms.take (k-1), report_html := none, error := none }
      else if k = ms.length + 2 then
        { status := .error, progress := ms, report_html := none, error := none }
      else if k = ms.length + 3 then
        { status := .error, progress := ms, report_html := none, error := some e }
      else
        { status := .error, progress := ms ++ ["ERROR: " ++ e],
          report_html := none, error := some e } := by
  have hlen : (Ev.setStatus Status.running :: ms.map Ev.push).length = ms.length + 1 := by
    simp
  rcases Nat.eq_zero_or_pos k with rfl | hk0
  · simp [jobAfter, jobFrom]
  · have hk : ¬ k = 0 := by omega
    rw [if_neg hk]
    by_cases h1 : k ≤ ms.length + 1
    · rw [if_pos h1]
      obtain ⟨j, rfl⟩ : ∃ j, k = j + 1 := ⟨k - 1, by omega⟩
      rw [jobAfter_append_le _ _ _ (by omega)]
      unfold jobAfter
      rw [jobFrom_statusPush]
      simp [newJob]
    · rw [if_neg h1]
      obtain ⟨d, rfl⟩ : ∃ d, k = (Ev.setStatus Status.running :: ms.map Ev.push).length + d :=
        ⟨k - (ms.length + 1), by omega⟩
      rw [jobAfter_append_add]
      have hfin : finalJob (Ev.setStatus Status.running :: ms.map Ev.push) =
          { status := .running, progress := ms, report_html := none, error := none } := by
        unfold finalJob
        rw [finalJob_statusPush]
        rfl
      rw [hfin, hlen] at *
      match d, h1 with
      | 0, h1 => exact absurd (by omega) h1
      | 1, _ => rw [if_pos (by omega)]; rfl
      | 2, _ =>
          rw [if_neg (by omega), if_pos (by omega)]
          rfl
      | (d2+3), _ =>
          rw [if_neg (by omega), if_neg (by omega)]
          unfold jobFrom
          rw [List.take_of_length_le
            (by simp only [failTail, List.length_cons, List.length_nil]; omega)]
          simp [failTail, applyEv]

theorem jobAfter_shape_done (ms : List String) (r : String) (k : Nat) :
    jobAfter ((Ev.setStatus .running :: ms.map Ev.push) ++ doneTail r) k =
      if k = 0 then newJob
      else if k ≤ ms.length + 1 then
        { status := .running, progress := ms.take (k-1), report_html := none, error := none }
      else if k = ms.length + 2 then
        { status := .running, progress := ms, report_html := some r, error := none }
      else if k = ms.length + 3 then
        { status := .complete, progress := ms, report_html := some r, error := none }
      else
        { status := .complete, progress := ms ++ ["Content brief ready!"],
          report_html := some r, error := none } := by
  have hlen : (Ev.setStatus Status.running :: ms.map Ev.push).length = ms.length + 1 := by
    simp
  rcases Nat.eq_zero_or_pos k with rfl | hk0
  · simp [jobAfter, jobFrom]
  · have hk : ¬ k = 0 := by omega
    rw [if_neg hk]
    by_cases h1 : k ≤ ms.length + 1
    · rw [if_pos h1]
      obtain ⟨j, rfl⟩ : ∃ j, k = j + 1 := ⟨k - 1, by omega⟩
      rw [jobAfter_append_le _ _ _ (by omega)]
      unfold jobAfter
      rw [jobFrom_statusPush]
      simp [newJob]
    · rw [if_neg h1]
      obtain ⟨d, rfl⟩ : ∃ d, k = (Ev.setStatus Status.running :: ms.map Ev.push).length + d :=
        ⟨k - (ms.length + 1), by omega⟩
      rw [jobAfter_append_add]
      have hfin : finalJob (Ev.setStatus Status.running :: ms.map Ev.push) =
          { status := .running, progress := ms, report_html := none, error := none } := by
        unfold finalJob
        rw [finalJob_statusPush]
        rfl
      rw [hfin, hlen] at *
      match d, h1 with
      | 0, h1 => exact absurd (by omega) h1
      | 1, _ => rw [if_pos (by omega)]; rfl
      | 2, _ =>
          rw [if_neg (by omega), if_pos (by omega)]
          rfl
      | (d2+3), _ =>
          rw [if_neg (by omega), if_neg (by omega)]
          unfold jobFrom
          rw [List.take_of_length_le
            (by simp only [doneTail, List.length_cons, List.length_nil]; omega)]
          simp [doneTail, applyEv]

theorem jobFrom_append_le (j0 : Job) (evs tail : List Ev) (k : Nat) (h : k ≤ evs.length) :
    jobFrom j0 (evs ++ tail) k = jobFrom j0 evs k := by
  unfold jobFrom
  rw [List.take_append_of_le_length h]

theorem jobFrom_append_add (j0 : Job) (evs tail : List Ev) (d : Nat) :
    jobFrom j0 (evs ++ tail) (evs.length + d) = jobFrom (evs.foldl applyEv j0) tail d := by
  unfold jobFrom
  rw [List.take_append, List.foldl_append]

theorem jobFrom_shape_fail (j0 : Job) (ms : List String) (e : String) (k : Nat) :
    jobFrom j0 ((Ev.setStatus .running :: ms.map Ev.push) ++ failTail e) k =
      if k = 0 then j0
      else if k ≤ ms.length + 1 then
        { j0 with status := .running, progress := j0.progress ++ ms.take (k-1) }
      else if k = ms.length + 2 then
        { j0 with status := .error, progress := j0.progress ++ ms }
      else if k = ms.length + 3 then
        { status := .error, progress := j0.progress ++ ms,
          report_html := j0.report_html, error := some e }
      else
        { status := .error, progress := j0.progress ++ ms ++ ["ERROR: " ++ e],
          report_html := j0.report_html, error := some e } := by
  have hlen : (Ev.setStatus Status.running :: ms.map Ev.push).length = ms.length + 1 := by
    simp
  rcases Nat.eq_zero_or_pos k with rfl | hk0
  · simp [jobFrom]
  · have hk : ¬ k = 0 := by omega
    rw [if_neg hk]
    by_cases h1 : k ≤ ms.length + 1
    · rw [if_pos h1]
      obtain ⟨k1, rfl⟩ : ∃ k1, k = k1 + 1 := ⟨k - 1, by omega⟩
      rw [jobFrom_append_le _ _ _ _ (by omega), jobFrom_statusPush]
      simp
    · rw [if_neg h1]
      obtain ⟨d, rfl⟩ : ∃ d, k = (Ev.setStatus Status.running :: ms.map Ev.push).length + d :=
        ⟨k - (ms.length + 1), by omega⟩
      rw [jobFrom_append_add, finalJob_statusPush]
      rw [hlen] at *
      match d, h1 with
      | 0, h1 => exact absurd (by omega) h1
      | 1, _ => rw [if_pos (by omega)]; rfl
      | 2, _ =>
          rw [if_neg (by omega), if_pos (by omega)]
          rfl
      | (d2+3), _ =>
          rw [if_neg (by omega), if_neg (by omega)]
          unfold jobFrom
          rw [List.take_of_length_le
            (by simp only [failTail, List.length_cons, List.length_nil]; omega)]
          simp [failTail, applyEv]

theorem jobFrom_shape_done (j0 : Job) (ms : List String) (r lastMsg : String) (k : Nat) :
    jobFrom j0 ((Ev.setStatus .running :: ms.map Ev.push) ++
        [Ev.setReport r, Ev.setStatus .complete, Ev.push lastMsg]) k =
      if k = 0 then j0
      else if k ≤ ms.length + 1 then
        { j0 with status := .running, progress := j0.progress ++ ms.take (k-1) }
      else if k = ms.length + 2 then
        { status := .running, progress := j0.progress ++ ms,
          report_html := some r, error := j0.error }
      else if k = ms.length + 3 then
        { status := .complete, progress := j0.progress ++ ms,
          report_html := some r, error := j0.error }
      else
        { status := .complete, progress := j0.progress ++ ms ++ [lastMsg],
          report_html := some r, error := j0.error } := by
  have hlen : (Ev.setStatus Status.running :: ms.map Ev.push).length = ms.length + 1 := by
    simp
  rcases Nat.eq_zero_or_pos k with rfl | hk0
  · simp [jobFrom]
  · have hk : ¬ k = 0 := by omega
    rw [if_neg hk]
    by_cases h1 : k ≤ ms.length + 1
    · rw [if_pos h1]
      obtain ⟨k1, rfl⟩ : ∃ k1, k = k1 + 1 := ⟨k - 1, by omega⟩
      rw [jobFrom_append_le _ _ _ _ (by omega), jobFrom_statusPush]
      simp
    · rw [if_neg h1]
      obtain ⟨d, rfl⟩ : ∃ d, k = (Ev.setStatus Status.running :: ms.map Ev.push).length + d :=
        ⟨k - (ms.length + 1), by omega⟩
      rw [jobFrom_append_add, finalJob_statusPush]
      rw [hlen] at *
      match d, h1 with
      | 0, h1 => exact absurd (by omega) h1
      | 1, _ => rw [if_pos (by omega)]; rfl
      | 2, _ =>
          rw [if_neg (by omega), if_pos (by omega)]
          rfl
      | (d2+3), _ =>
          rw [if_neg (by omega), if_neg (by omega)]
          unfold jobFrom
          rw [List.take_of_length_le
            (by simp only [List.length_cons, List.length_nil]; omega)]
          simp [applyEv]

theorem run_crew_shape (cenv : CrewEnv) (g : String) :
    ∃ ms : List String,
      (∃ e, _run_crew cenv g =
          Ev.push ("Starting research for: " ++ g) ::
            ((Ev.setStatus .running :: ms.map Ev.push) ++ failTail e)) ∨
      (∃ r, _run_crew cenv g =
          Ev.push ("Starting research for: " ++ g) ::
            ((Ev.setStatus .running :: ms.map Ev.push) ++
              [Ev.setReport r, Ev.setStatus .complete, Ev.push "Research complete!"])) := by
  cases h : crewBody cenv g with
  | mk ms out =>
      cases out with
      | error e =>
          refine ⟨ms, .inl ⟨e, ?_⟩⟩
          unfold _run_crew
          rw [h]
          rfl
      | ok r =>
          refine ⟨ms, .inr ⟨r, ?_⟩⟩
          unfold _run_crew
          rw [h]
          rfl

/-- State of a fresh job after the single starting push of `_run_crew`. -/
def startedJob (m0 : String) : Job :=
  { status := .queued, progress := [m0], report_html := none, error := none }

theorem jobAfter_push_cons (m0 : String) (rest : List Ev) (k : Nat) :
    jobAfter (Ev.push m0 :: rest) (k + 1) = jobFrom (startedJob m0) rest k := by
  unfold jobAfter jobFrom
  rw [List.take_succ_cons, List.foldl_cons]
  rfl

theorem finalJob_push_fail (m0 : String) (ms : List String) (e : String) :
    finalJob (Ev.push m0 :: ((Ev.setStatus .running :: ms.map Ev.push) ++ failTail e)) =
      { status := .error, progress := [m0] ++ ms ++ ["ERROR: " ++ e],
        report_html := none, error := some e } := by
  unfold finalJob
  rw [List.foldl_cons, foldl_shape_fail]
  rfl

theorem finalJob_push_done (m0 : String) (ms : List String) (r lastMsg : String) :
    finalJob (Ev.push m0 :: ((Ev.setStatus .running :: ms.map Ev.push) ++
        [Ev.setReport r, Ev.setStatus .complete, Ev.push lastMsg])) =
      { status := .complete, progress := [m0] ++ ms ++ [lastMsg],
        report_html := some r, error := none } := by
  unfold finalJob
  rw [List.foldl_cons, foldl_shape_done]
  rfl

/-- Formalization of claim C3 over a worker run: the progress list only
grows from each observable state to the next (never truncated or
reordered), and once the status is terminal no further entry is appended. -/
def progressFrozenClaim (evs : List Ev) : Prop :=
  (∀ k, k ≤ evs.length → (jobAfter evs k).progress <+: (jobAfter evs (k+1)).progress) ∧
  (∀ k, k ≤ evs.length → (jobAfter evs k).status.isTerminal = true →
      (jobAfter evs (k+1)).progress = (jobAfter evs k).progress)

/-- Formalization of claim C4 over a worker run: at every observable state,
at most one of result/error is set, whichever is set became set only with a
terminal status, and the result artifact is present iff the status is
complete. -/
def resultOnlyAfterTerminalClaim (evs : List Ev) : Prop :=
  ∀ k, k ≤ evs.length →
    (¬((jobAfter evs k).report_html.isSome = true ∧ (jobAfter evs k).error.isSome = true)) ∧
    ((jobAfter evs k).report_html.isSome = true → (jobAfter evs k).status.isTerminal = true) ∧
    ((jobAfter evs k).error.isSome = true → (jobAfter evs k).status.isTerminal = true) ∧
    ((jobAfter evs k).report_html.isSome = true ↔ (jobAfter evs k).status = .complete)

/-- Formalization of claim C9 for one run: if the analysis credential is
absent the job fails with no pipeline work performed — the final progress
log contains no search note and no page-fetch note. -/
def credsValidatedUpfrontClaim (env : Env) (kw : String) : Prop :=
  env.anthropic_api_key = none →
    (finalJob (run_content_brief env kw)).status = .error ∧
    ∀ m ∈ (finalJob (run_content_brief env kw)).progress,
      strStarts "Searching" m = false ∧ strStarts "[" m = false

/-- Environment in which the Serper credential is set but the search call
itself fails. -/
def envSearchFail : Env :=
  { serper_api_key := "serper-key", anthropic_api_key := some "anthropic-key",
    serper_search := fun _ => .error "boom",
    fetch := fun _ _ => .error "boom",
    claude := fun _ => .error "boom",
    markdown := fun s => s, now_ts := "2026-01-01 00:00 UTC" }

/-- Environment in which every collaborator succeeds, with one organic
search result. -/
def envAllOk : Env :=
  { serper_api_key := "serper-key", anthropic_api_key := some "anthropic-key",
    serper_search := fun _ => .ok [{ link := some "https://example.com/a", title := some "A" }],
    fetch := fun _ _ => .ok { page_title := "Title A", content_text := "Body A" },
    claude := fun _ => .ok "## 1. Search Intent\nInformational.",
    markdown := fun s => s, now_ts := "2026-01-01 00:00 UTC" }

/-- Environment identical to `envAllOk` except that the Anthropic credential
is absent. -/
def envNoAnthropic : Env :=
  { envAllOk with anthropic_api_key := none }

instance (evs : List Ev) : Decidable (progressFrozenClaim evs) := by
  unfold progressFrozenClaim
  exact inferInstance

instance (evs : List Ev) : Decidable (resultOnlyAfterTerminalClaim evs) := by
  unfold resultOnlyAfterTerminalClaim
  exact inferInstance

instance (env : Env) (kw : String) : Decidable (credsValidatedUpfrontClaim env kw) := by
  unfold credsValidatedUpfrontClaim
  exact inferInstance



/-- C1: the claim says a content-brief submission with a non-empty trimmed
keyword creates a Job, spawns the Worker detached and returns the job id
without raising. The code does create the Job entry, but then reads the
undeclared `request.competitor_urls` attribute while building the thread
arguments, so the handler raises AttributeError, spawns nothing, and never
returns the job id — this theorem evaluates that behaviour. -/
theorem start_content_brief_raises (store : Store) (fresh_uuid : String)
    (request : ContentBriefRequest) (h : ¬ pyStrip request.keyword = "") :
    (start_content_brief store fresh_uuid request).store
        = store ++ [("brief-" ++ fresh_uuid, newJob)] ∧
    (start_content_brief store fresh_uuid request).spawned = none ∧
    (start_content_brief store fresh_uuid request).response
        = .error (.attributeError
            "ContentBriefRequest object has no attribute competitor_urls") := by
  refine ⟨?_, ?_, ?_⟩ <;>
    simp [start_content_brief, ContentBriefRequest.competitor_urls, h]

/-- Witness for `start_content_brief_raises` at a concrete submission. -/
theorem start_content_brief_raises_witness :
    ¬ pyStrip "casino" = "" ∧
    (start_content_brief [] "u1" { keyword := "casino" }).response
        = .error (.attributeError
            "ContentBriefRequest object has no attribute competitor_urls") :=
  ⟨by decide, (start_content_brief_raises [] "u1" { keyword := "casino" } (by decide)).2.2⟩

/-- C2: the claim says every created job is eventually driven to exactly one
terminal status by its worker. The research worker `_run_crew` does always
leave a terminal status (last conjunct), but a content-brief submission
creates a queued job and then raises before any thread is constructed
(`spawned = none`), so that job has no worker and stays queued forever. -/
theorem brief_job_stays_queued (store : Store) (fresh_uuid : String)
    (request : ContentBriefRequest) (h : ¬ pyStrip request.keyword = "") :
    (start_content_brief store fresh_uuid request).store
        = store ++ [("brief-" ++ fresh_uuid, newJob)] ∧
    newJob.status = .queued ∧
    (start_content_brief store fresh_uuid request).spawned = none ∧
    ∀ (cenv : CrewEnv) (g : String),
      ((finalJob (_run_crew cenv g)).status).isTerminal = true := by
  refine ⟨?_, rfl, ?_, ?_⟩
  · simp [start_content_brief, ContentBriefRequest.competitor_urls, h]
  · simp [start_content_brief, ContentBriefRequest.competitor_urls, h]
  · intro cenv g
    unfold finalJob _run_crew
    cases h2 : crewBody cenv g with
    | mk ms out =>
        cases out with
        | error e =>
            show (List.foldl applyEv (applyEv newJob (Ev.push ("Starting research for: " ++ g)))
              ((Ev.setStatus Status.running :: List.map Ev.push ms) ++ failTail e)).status.isTerminal
                = true
            rw [foldl_shape_fail]
            rfl
        | ok r =>
            show (List.foldl applyEv (applyEv newJob (Ev.push ("Starting research for: " ++ g)))
              ((Ev.setStatus Status.running :: List.map Ev.push ms) ++
                [Ev.setReport r, Ev.setStatus Status.complete,
                 Ev.push "Research complete!"])).status.isTerminal = true
            rw [foldl_shape_done]
            rfl

/-- Witness for `brief_job_stays_queued` at a concrete submission. -/
theorem brief_job_stays_queued_witness :
    ¬ pyStrip "casino royale" = "" ∧
    (start_content_brief [] "u2" { keyword := "casino royale" }).store
        = [("brief-u2", newJob)] ∧
    (start_content_brief [] "u2" { keyword := "casino royale" }).spawned = none :=
  ⟨by decide,
   (brief_job_stays_queued [] "u2" { keyword := "casino royale" } (by decide)).1,
   (brief_job_stays_queued [] "u2" { keyword := "casino royale" } (by decide)).2.2.1⟩

/-- C5: a submission whose topic/keyword strips to the empty string is
rejected with a 422 and the job store is left unchanged, for both
submission endpoints. -/
theorem empty_input_rejected (store : Store) (fresh_uuid : String)
    (r1 : ResearchRequest) (r2 : ContentBriefRequest)
    (h1 : pyStrip r1.game_name = "") (h2 : pyStrip r2.keyword = "") :
    start_research store fresh_uuid r1 =
      { store := store, spawned := none,
        response := .error (.http 422 "game_name cannot be empty") } ∧
    start_content_brief store fresh_uuid r2 =
      { store := store, spawned := none,
        response := .error (.http 422 "keyword cannot be empty") } := by
  constructor
  · simp [start_research, h1]
  · simp [start_content_brief, h2]

/-- Witness for `empty_input_rejected` on whitespace-only inputs. -/
theorem empty_input_rejected_witness :
    pyStrip "   " = "" ∧ pyStrip " \t " = "" ∧
    start_research [("j", newJob)] "u3" { game_name := "   " } =
      { store := [("j", newJob)], spawned := none,
        response := .error (.http 422 "game_name cannot be empty") } ∧
    start_content_brief [("j", newJob)] "u3" { keyword := " \t " } =
      { store := [("j", newJob)], spawned := none,
        response := .error (.http 422 "keyword cannot be empty") } :=
  ⟨by decide, by decide,
   (empty_input_rejected [("j", newJob)] "u3" { game_name := "   " } { keyword := " \t " }
      (by decide) (by decide)).1,
   (empty_input_rejected [("j", newJob)] "u3" { game_name := "   " } { keyword := " \t " }
      (by decide) (by decide)).2⟩

theorem pushedMsgs_shape_fail (ms : List String) (e : String) :
    pushedMsgs ((Ev.setStatus .running :: ms.map Ev.push) ++ failTail e) =
      ms ++ ["ERROR: " ++ e] := by
  rw [pushedMsgs_append]
  have h1 : pushedMsgs (Ev.setStatus Status.running :: ms.map Ev.push) = ms := by
    rw [pushedMsgs, List.filterMap_cons]
    show List.filterMap evPushMsg (ms.map Ev.push) = ms
    exact pushedMsgs_map_push ms
  have h2 : pushedMsgs (failTail e) = ["ERROR: " ++ e] := by
    simp [failTail, pushedMsgs, evPushMsg]
  rw [h1, h2]

theorem pushedMsgs_shape_done (ms : List String) (r : String) :
    pushedMsgs ((Ev.setStatus .running :: ms.map Ev.push) ++ doneTail r) =
      ms ++ ["Content brief ready!"] := by
  rw [pushedMsgs_append]
  have h1 : pushedMsgs (Ev.setStatus Status.running :: ms.map Ev.push) = ms := by
    rw [pushedMsgs, List.filterMap_cons]
    show List.filterMap evPushMsg (ms.map Ev.push) = ms
    exact pushedMsgs_map_push ms
  have h2 : pushedMsgs (doneTail r) = ["Content brief ready!"] := by
    simp [doneTail, pushedMsgs, evPushMsg]
  rw [h1, h2]

theorem enumFrom_len {α : Type} : ∀ (n : Nat) (l : List α), (List.enumFrom n l).length = l.length := by
  intro n l
  induction l generalizing n with
  | nil => rfl
  | cons a rest ih => simp [List.enumFrom, ih]

theorem run_content_brief_eq_fail (env : Env) (kw : String) (ms : List String) (e : String)
    (h : briefBody env kw = (ms, .error e)) :
    run_content_brief env kw = (Ev.setStatus .running :: ms.map Ev.push) ++ failTail e := by
  unfold run_content_brief
  rw [h]
  rfl

theorem run_content_brief_eq_done (env : Env) (kw : String) (ms : List String) (r : String)
    (h : briefBody env kw = (ms, .ok r)) :
    run_content_brief env kw = (Ev.setStatus .running :: ms.map Ev.push) ++ doneTail r := by
  unfold run_content_brief
  rw [h]
  rfl

theorem searching_note_fetch : strStarts "[" "Searching Google via Serper API..." = false := by
  decide

theorem building_note_fetch : strStarts "[" "Building competitor analysis prompt..." = false := by
  decide

theorem sending_note_fetch :
    strStarts "[" "Sending to Claude for content brief analysis..." = false := by decide

theorem claudeDone_note_fetch :
    strStarts "[" "Claude analysis complete — formatting report..." = false := by decide

theorem ready_note_fetch : strStarts "[" "Content brief ready!" = false := by decide

theorem searching_note_skip :
    strStarts "Skipped page " "Searching Google via Serper API..." = false := by decide

theorem building_note_skip :
    strStarts "Skipped page " "Building competitor analysis prompt..." = false := by decide

theorem sending_note_skip :
    strStarts "Skipped page " "Sending to Claude for content brief analysis..." = false := by
  decide

theorem claudeDone_note_skip :
    strStarts "Skipped page " "Claude analysis complete — formatting report..." = false := by
  decide

theorem ready_note_skip : strStarts "Skipped page " "Content brief ready!" = false := by decide

theorem countP_fetchNotes_run (env : Env) (kw : String) (l : List SearchResult)
    (hk : ¬ env.serper_api_key = "") (hs : env.serper_search kw = .ok l) (hl : l ≠ []) :
    (pushedMsgs (run_content_brief env kw)).countP (fun m => strStarts "[" m)
      = min 5 l.length := by
  have hfetch := countP_fetchNotes env (l.take 5).length ((l.take 5).enumFrom 1)
  have hlen : ((l.take 5).enumFrom 1).length = min 5 l.length := by
    rw [enumFrom_len, List.length_take]
  cases ha : env.anthropic_api_key with
  | none =>
      rw [run_content_brief_eq_fail env kw _ _ (briefBody_noAnthropic env kw l hk hs hl ha),
        pushedMsgs_shape_fail]
      simp only [String.append_assoc, List.countP_append, List.countP_cons, List.countP_nil,
        startNote_not_fetchNote, searching_note_fetch, foundNote_not_fetchNote,
        building_note_fetch, sending_note_fetch, errorNote_not_fetchNote]
      unfold briefFetchMsgs at *
      rw [hfetch, hlen]
      simp
  | some a =>
      cases hc : env.claude (briefPrompt kw (compSummary (briefCompetitorData env l))) with
      | error e =>
          rw [run_content_brief_eq_fail env kw _ _
              (briefBody_claudeFail env kw l a e hk hs hl ha hc),
            pushedMsgs_shape_fail]
          simp only [String.append_assoc, List.countP_append, List.countP_cons, List.countP_nil,
            startNote_not_fetchNote, searching_note_fetch, foundNote_not_fetchNote,
            building_note_fetch, sending_note_fetch, errorNote_not_fetchNote]
          unfold briefFetchMsgs at *
          rw [hfetch, hlen]
          simp
      | ok txt =>
          rw [run_content_brief_eq_done env kw _ _
              (briefBody_claudeOk env kw l a txt hk hs hl ha hc),
            pushedMsgs_shape_done]
          simp only [String.append_assoc, List.countP_append, List.countP_cons, List.countP_nil,
            startNote_not_fetchNote, searching_note_fetch, foundNote_not_fetchNote,
            building_note_fetch, sending_note_fetch, claudeDone_note_fetch, ready_note_fetch]
          unfold briefFetchMsgs at *
          rw [hfetch, hlen]
          simp

theorem noResults_error_note_fetch :
    strStarts "[" "ERROR: No organic search results returned by Serper" = false := by decide

/-- C6: the brief worker fetches exactly the first `min 5 l.length` search
results (the number of page-fetch progress notes equals that, hence at most
5), and when the search yields zero organic results the run is exactly the
short error trace — it contains no progress entry claiming a page was
fetched, and the job ends in status error. -/
theorem brief_takes_first_five (env : Env) (kw : String) (l : List SearchResult)
    (hk : ¬ env.serper_api_key = "") (hs : env.serper_search kw = .ok l) :
    (pushedMsgs (run_content_brief env kw)).countP (fun m => strStarts "[" m)
        = min 5 l.length ∧
    min 5 l.length ≤ 5 ∧
    (l = [] →
      run_content_brief env kw =
        [Ev.setStatus .running,
         Ev.push ("Starting content brief for: " ++ kw),
         Ev.push "Searching Google via Serper API...",
         Ev.setStatus .error,
         Ev.setError "No organic search results returned by Serper",
         Ev.push "ERROR: No organic search results returned by Serper"] ∧
      (finalJob (run_content_brief env kw)).status = .error) := by
  refine ⟨?_, Nat.min_le_left 5 _, ?_⟩
  · by_cases hl : l = []
    · subst hl
      rw [run_content_brief_eq_fail env kw _ _ (briefBody_noResults env kw hk hs),
        pushedMsgs_shape_fail]
      simp [List.countP_cons, List.countP_append, startNote_not_fetchNote,
        searching_note_fetch, noResults_error_note_fetch]
    · exact countP_fetchNotes_run env kw l hk hs hl
  · intro hl
    subst hl
    rw [run_content_brief_eq_fail env kw _ _ (briefBody_noResults env kw hk hs)]
    constructor
    · rfl
    · rw [finalJob_shape_fail]

/-- Environment identical to `envAllOk` except that the search returns no
organic results. -/
def envNoResults : Env :=
  { envAllOk with serper_search := fun _ => .ok [] }

/-- Witness for `brief_takes_first_five` on a search with zero results. -/
theorem brief_takes_first_five_witness :
    (¬ envNoResults.serper_api_key = "") ∧
    envNoResults.serper_search "live casino" = .ok [] ∧
    (pushedMsgs (run_content_brief envNoResults "live casino")).countP
        (fun m => strStarts "[" m) = 0 ∧
    (finalJob (run_content_brief envNoResults "live casino")).status = .error :=
  ⟨by decide, rfl,
   (brief_takes_first_five envNoResults "live casino" [] (by decide) rfl).1,
   ((brief_takes_first_five envNoResults "live casino" [] (by decide) rfl).2.2 rfl).2⟩

/-- C7: when the keyword is configured, the search returns a non-empty list,
the analysis credential is set and the analysis call succeeds, the job
completes regardless of per-page fetch failures; the competitor table rows
carry exactly the ranks 1..N in order; every failed rank gets the
empty-content placeholder; and the progress log contains exactly one
"Skipped page" note per failed fetch. The rendered artifact is
`_format_report` over that full N-row competitor list. -/
theorem fetch_failures_never_abort (env : Env) (kw : String) (l : List SearchResult)
    (hk : ¬ env.serper_api_key = "") (hs : env.serper_search kw = .ok l) (hl : l ≠ [])
    (a : String) (ha : env.anthropic_api_key = some a)
    (hcl : ∀ p, (env.claude p).isOk = true) :
    (finalJob (run_content_brief env kw)).status = .complete ∧
    (briefCompetitorData env l).map (fun c => c.position)
        = List.range' 1 (l.take 5).length ∧
    (∀ c ∈ briefCompetitorData env l,
        (env.fetch c.position c.url).isOk = false → c.content = "") ∧
    (pushedMsgs (run_content_brief env kw)).countP (fun m => strStarts "Skipped page " m)
        = ((l.take 5).enumFrom 1).countP (fun p => !(env.fetch p.1 (p.2.link.getD "")).isOk) ∧
    (∃ txt, env.claude (briefPrompt kw (compSummary (briefCompetitorData env l))) = .ok txt ∧
        (finalJob (run_content_brief env kw)).report_html
            = some (_format_report env kw txt (briefCompetitorData env l))) := by
  cases hc : env.claude (briefPrompt kw (compSummary (briefCompetitorData env l))) with
  | error e =>
      have hbad := hcl (briefPrompt kw (compSummary (briefCompetitorData env l)))
      rw [hc] at hbad
      simp [Except.isOk, Except.toBool] at hbad
  | ok txt =>
      have htr := run_content_brief_eq_done env kw _ _
        (briefBody_claudeOk env kw l a txt hk hs hl ha hc)
      refine ⟨?_, ?_, ?_, ?_, txt, rfl, ?_⟩
      · rw [htr, finalJob_shape_done]
      · unfold briefCompetitorData
        rw [fetchPages_positions]
        exact List.enumFrom_map_fst _ _
      · intro c hcmem
        exact fetchPages_failContent env _ _ c hcmem
      · rw [htr, pushedMsgs_shape_done]
        simp only [String.append_assoc, List.countP_append, List.countP_cons, List.countP_nil,
          startNote_not_skipNote, searching_note_skip, foundNote_not_skipNote,
          building_note_skip, sending_note_skip, claudeDone_note_skip, ready_note_skip]
        unfold briefFetchMsgs
        rw [countP_skipNotes]
        simp
      · rw [htr, finalJob_shape_done]

/-- Environment with five organic results in which the fetches of ranks 2
and 4 fail and everything else succeeds. -/
def envTwoFetchFails : Env :=
  { serper_api_key := "serper-key", anthropic_api_key := some "anthropic-key",
    serper_search := fun _ => .ok
      [{ link := some "https://example.com/a", title := some "A" },
       { link := some "https://example.com/b", title := some "B" },
       { link := some "https://example.com/c", title := some "C" },
       { link := some "https://example.com/d", title := some "D" },
       { link := some "https://example.com/e", title := some "E" }],
    fetch := fun i _ =>
      if i = 2 || i = 4 then .error "HTTP Error 403"
      else .ok { page_title := "Some Page", content_text := "body text" },
    claude := fun _ => .ok "## 1. Search Intent\nInformational.",
    markdown := fun s => s, now_ts := "2026-01-01 00:00 UTC" }

/-- Witness for `fetch_failures_never_abort`: five results, two failed
fetches, still complete with all five ranks and exactly two skip notes. -/
theorem fetch_failures_never_abort_witness :
    (finalJob (run_content_brief envTwoFetchFails "casino bonuses")).status = .complete ∧
    (briefCompetitorData envTwoFetchFails
        ((envTwoFetchFails.serper_search "casino bonuses").toOption.getD [])).map
          (fun c => c.position) = [1, 2, 3, 4, 5] ∧
    (pushedMsgs (run_content_brief envTwoFetchFails "casino bonuses")).countP
        (fun m => strStarts "Skipped page " m) = 2 := by
  have h := fetch_failures_never_abort envTwoFetchFails "casino bonuses"
    ((envTwoFetchFails.serper_search "casino bonuses").toOption.getD [])
    (by decide) rfl (by decide) "anthropic-key" rfl (fun p => rfl)
  exact ⟨h.1, h.2.1, h.2.2.2.1⟩

/-- C9 counterexample: with the analysis credential absent but the search
credential set, the concrete run performs the search and a page fetch (their
notes are in the final progress log) before failing, so the worker does not
validate all required credentials before pipeline work as the claim states. -/
theorem creds_upfront_counterexample :
    ¬ credsValidatedUpfrontClaim envNoAnthropic "slot games" := by decide

/-- C9 amended: only the search credential is validated before any pipeline
work — when it is absent the run is exactly the short configuration-error
trace with the error surfaced verbatim; the analysis credential is not
checked upfront: when it is absent (and the search succeeds) the job still
ends in error with the client-construction message in its error field, but
only after the search/fetch steps ran. -/
theorem creds_validation_amended (env : Env) (kw : String) (l : List SearchResult) :
    (env.serper_api_key = "" →
      run_content_brief env kw =
        [Ev.setStatus .running,
         Ev.push ("Starting content brief for: " ++ kw),
         Ev.setStatus .error,
         Ev.setError "SERPER_API_KEY is not set in environment",
         Ev.push "ERROR: SERPER_API_KEY is not set in environment"] ∧
      (finalJob (run_content_brief env kw)).error
          = some "SERPER_API_KEY is not set in environment") ∧
    (¬ env.serper_api_key = "" → env.serper_search kw = .ok l → l ≠ [] →
      env.anthropic_api_key = none →
      (finalJob (run_content_brief env kw)).status = .error ∧
      (finalJob (run_content_brief env kw)).error = some anthropicNoKeyMsg) := by
  constructor
  · intro hk
    have htr := run_content_brief_eq_fail env kw _ _ (briefBody_noKey env kw hk)
    rw [htr]
    refine ⟨rfl, ?_⟩
    rw [finalJob_shape_fail]
  · intro hk hs hl ha
    have htr := run_content_brief_eq_fail env kw _ _
      (briefBody_noAnthropic env kw l hk hs hl ha)
    rw [htr, finalJob_shape_fail]
    exact ⟨rfl, rfl⟩

/-- Environment identical to `envAllOk` except that the Serper credential is
absent. -/
def envNoSerper : Env :=
  { envAllOk with serper_api_key := "" }

/-- Witness for `creds_validation_amended`, exercising both conjuncts with
concrete environments. -/
theorem creds_validation_amended_witness :
    run_content_brief envNoSerper "roulette" =
      [Ev.setStatus .running,
       Ev.push ("Starting content brief for: " ++ "roulette"),
       Ev.setStatus .error,
       Ev.setError "SERPER_API_KEY is not set in environment",
       Ev.push "ERROR: SERPER_API_KEY is not set in environment"] ∧
    (finalJob (run_content_brief envNoAnthropic "roulette")).status = .error ∧
    (finalJob (run_content_brief envNoAnthropic "roulette")).error
        = some anthropicNoKeyMsg :=
  ⟨((creds_validation_amended envNoSerper "roulette" []).1 rfl).1,
   ((creds_validation_amended envNoAnthropic "roulette"
      [{ link := some "https://example.com/a", title := some "A" }]).2
      (by decide) rfl (by decide) rfl).1,
   ((creds_validation_amended envNoAnthropic "roulette"
      [{ link := some "https://example.com/a", title := some "A" }]).2
      (by decide) rfl (by decide) rfl).2⟩

/-- C3 counterexample: in the concrete failing-search run, the worker pushes
the final "ERROR:" note after the status is already terminal, so the
progress sequence is not frozen once the status is terminal. -/
theorem progress_frozen_counterexample :
    ¬ progressFrozenClaim (run_content_brief envSearchFail "slot games") := by decide

/-- Concrete research-worker environment in which crew building and kickoff
succeed with one step log. -/
def crewEnvOk : CrewEnv :=
  { crew_build := .ok (), step_logs := ["step one"],
    kickoff := .ok "report text", now_ts := "2026-01-01 00:00 UTC" }

/-- C3 amended: for every job — covering both the brief worker
`run_content_brief` and the research worker `_run_crew` — across the
observable states of the worker run the progress list is append-only (each
state's list is a prefix of the next, so never truncated or reordered);
once the status is terminal it never changes again and at most one further
progress entry — the final completion/error note — is appended. -/
theorem progress_append_only_amended (env : Env) (kw : String)
    (cenv : CrewEnv) (g : String) (k : Nat) :
    (jobAfter (run_content_brief env kw) k).progress <+:
        (jobAfter (run_content_brief env kw) (k + 1)).progress ∧
    ((jobAfter (run_content_brief env kw) k).status.isTerminal = true →
      (jobAfter (run_content_brief env kw) (k + 1)).status
          = (jobAfter (run_content_brief env kw) k).status ∧
      (finalJob (run_content_brief env kw)).progress.length
          ≤ (jobAfter (run_content_brief env kw) k).progress.length + 1) ∧
    (jobAfter (_run_crew cenv g) k).progress <+:
        (jobAfter (_run_crew cenv g) (k + 1)).progress ∧
    ((jobAfter (_run_crew cenv g) k).status.isTerminal = true →
      (jobAfter (_run_crew cenv g) (k + 1)).status
          = (jobAfter (_run_crew cenv g) k).status ∧
      (finalJob (_run_crew cenv g)).progress.length
          ≤ (jobAfter (_run_crew cenv g) k).progress.length + 1) := by
  refine ⟨jobFrom_progress_step _ _ _, ?_, jobFrom_progress_step _ _ _, ?_⟩
  · intro hterm
    obtain ⟨ms, hcase⟩ := run_content_brief_shape env kw
    rcases hcase with ⟨e, hev⟩ | ⟨r, hev⟩
    · rw [hev] at hterm ⊢
      have hk2 : ms.length + 2 ≤ k := by
        by_contra hlt
        rw [jobAfter_shape_fail] at hterm
        rcases Nat.eq_zero_or_pos k with rfl | hpos
        · simp [newJob, Status.isTerminal] at hterm
        · rw [if_neg (by omega), if_pos (by omega)] at hterm
          simp [Status.isTerminal] at hterm
      have hstat : (jobAfter ((Ev.setStatus .running :: ms.map Ev.push) ++ failTail e) k).status
          = .error := by
        rw [jobAfter_shape_fail, if_neg (by omega), if_neg (by omega)]
        split_ifs <;> rfl
      have hstat1 : (jobAfter ((Ev.setStatus .running :: ms.map Ev.push) ++ failTail e) (k + 1)).status
          = .error := by
        rw [jobAfter_shape_fail, if_neg (by omega), if_neg (by omega)]
        split_ifs <;> rfl
      have hlen2 : ms.length ≤
          (jobAfter ((Ev.setStatus .running :: ms.map Ev.push) ++ failTail e) k).progress.length := by
        rw [jobAfter_shape_fail, if_neg (by omega), if_neg (by omega)]
        split_ifs <;> simp
      refine ⟨by rw [hstat, hstat1], ?_⟩
      rw [finalJob_shape_fail]
      simp only [List.length_append, List.length_cons, List.length_nil]
      omega
    · rw [hev] at hterm ⊢
      have hk2 : ms.length + 3 ≤ k := by
        by_contra hlt
        rw [jobAfter_shape_done] at hterm
        rcases Nat.eq_zero_or_pos k with rfl | hpos
        · simp [newJob, Status.isTerminal] at hterm
        · by_cases h1 : k ≤ ms.length + 1
          · rw [if_neg (by omega), if_pos h1] at hterm
            simp [Status.isTerminal] at hterm
          · rw [if_neg (by omega), if_neg h1, if_pos (by omega)] at hterm
            simp [Status.isTerminal] at hterm
      have hstat : (jobAfter ((Ev.setStatus .running :: ms.map Ev.push) ++ doneTail r) k).status
          = .complete := by
        rw [jobAfter_shape_done, if_neg (by omega), if_neg (by omega), if_neg (by omega)]
        split_ifs <;> rfl
      have hstat1 : (jobAfter ((Ev.setStatus .running :: ms.map Ev.push) ++ doneTail r) (k + 1)).status
          = .complete := by
        rw [jobAfter_shape_done, if_neg (by omega), if_neg (by omega), if_neg (by omega)]
        split_ifs <;> rfl
      have hlen2 : ms.length ≤
          (jobAfter ((Ev.setStatus .running :: ms.map Ev.push) ++ doneTail r) k).progress.length := by
        rw [jobAfter_shape_done, if_neg (by omega), if_neg (by omega), if_neg (by omega)]
        split_ifs <;> simp
      refine ⟨by rw [hstat, hstat1], ?_⟩
      rw [finalJob_shape_done]
      simp only [List.length_append, List.length_cons, List.length_nil]
      omega
  · intro hterm
    obtain ⟨ms, hcase⟩ := run_crew_shape cenv g
    rcases hcase with ⟨e, hev⟩ | ⟨r, hev⟩
    · rw [hev] at hterm ⊢
      rcases Nat.eq_zero_or_pos k with rfl | hpos
      · simp [jobAfter, jobFrom, newJob, Status.isTerminal] at hterm
      · obtain ⟨k1, rfl⟩ : ∃ k1, k = k1 + 1 := ⟨k - 1, by omega⟩
        rw [jobAfter_push_cons] at hterm
        rw [jobAfter_push_cons, jobAfter_push_cons, finalJob_push_fail]
        have hk2 : ms.length + 2 ≤ k1 := by
          by_contra hlt
          rw [jobFrom_shape_fail] at hterm
          rcases Nat.eq_zero_or_pos k1 with rfl | hp1
          · simp [startedJob, Status.isTerminal] at hterm
          · rw [if_neg (by omega), if_pos (by omega)] at hterm
            simp [Status.isTerminal] at hterm
        have hstat : (jobFrom (startedJob ("Starting research for: " ++ g))
            ((Ev.setStatus .running :: ms.map Ev.push) ++ failTail e) k1).status = .error := by
          rw [jobFrom_shape_fail, if_neg (by omega), if_neg (by omega)]
          split_ifs <;> rfl
        have hstat1 : (jobFrom (startedJob ("Starting research for: " ++ g))
            ((Ev.setStatus .running :: ms.map Ev.push) ++ failTail e) (k1 + 1)).status = .error := by
          rw [jobFrom_shape_fail, if_neg (by omega), if_neg (by omega)]
          split_ifs <;> rfl
        have hlen2 : ms.length + 1 ≤ (jobFrom (startedJob ("Starting research for: " ++ g))
            ((Ev.setStatus .running :: ms.map Ev.push) ++ failTail e) k1).progress.length := by
          rw [jobFrom_shape_fail, if_neg (by omega), if_neg (by omega)]
          split_ifs <;>
            simp only [startedJob, List.length_append, List.length_cons, List.length_nil] <;>
            omega
        refine ⟨by rw [hstat, hstat1], ?_⟩
        simp only [List.length_append, List.length_cons, List.length_nil]
        omega
    · rw [hev] at hterm ⊢
      rcases Nat.eq_zero_or_pos k with rfl | hpos
      · simp [jobAfter, jobFrom, newJob, Status.isTerminal] at hterm
      · obtain ⟨k1, rfl⟩ : ∃ k1, k = k1 + 1 := ⟨k - 1, by omega⟩
        rw [jobAfter_push_cons] at hterm
        rw [jobAfter_push_cons, jobAfter_push_cons, finalJob_push_done]
        have hk2 : ms.length + 3 ≤ k1 := by
          by_contra hlt
          rw [jobFrom_shape_done] at hterm
          rcases Nat.eq_zero_or_pos k1 with rfl | hp1
          · simp [startedJob, Status.isTerminal] at hterm
          · by_cases h1 : k1 ≤ ms.length + 1
            · rw [if_neg (by omega), if_pos h1] at hterm
              simp [Status.isTerminal] at hterm
            · rw [if_neg (by omega), if_neg h1, if_pos (by omega)] at hterm
              simp [Status.isTerminal] at hterm
        have hstat : (jobFrom (startedJob ("Starting research for: " ++ g))
            ((Ev.setStatus .running :: ms.map Ev.push) ++
              [Ev.setReport r, Ev.setStatus .complete, Ev.push "Research complete!"]) k1).status
            = .complete := by
          rw [jobFrom_shape_done, if_neg (by omega), if_neg (by omega), if_neg (by omega)]
          split_ifs <;> rfl
        have hstat1 : (jobFrom (startedJob ("Starting research for: " ++ g))
            ((Ev.setStatus .running :: ms.map Ev.push) ++
              [Ev.setReport r, Ev.setStatus .complete, Ev.push "Research complete!"]) (k1 + 1)).status
            = .complete := by
          rw [jobFrom_shape_done, if_neg (by omega), if_neg (by omega), if_neg (by omega)]
          split_ifs <;> rfl
        have hlen2 : ms.length + 1 ≤ (jobFrom (startedJob ("Starting research for: " ++ g))
            ((Ev.setStatus .running :: ms.map Ev.push) ++
              [Ev.setReport r, Ev.setStatus .complete, Ev.push "Research complete!"]) k1).progress.length := by
          rw [jobFrom_shape_done, if_neg (by omega), if_neg (by omega), if_neg (by omega)]
          split_ifs <;>
            simp only [startedJob, List.length_append, List.length_cons, List.length_nil] <;>
            omega
        refine ⟨by rw [hstat, hstat1], ?_⟩
        simp only [List.length_append, List.length_cons, List.length_nil]
        omega

/-- Witness for `progress_append_only_amended` at terminal states of
concrete runs of both workers (the states right after the terminal status
is set). -/
theorem progress_append_only_amended_witness :
    (jobAfter (run_content_brief envSearchFail "slot games") 4).status.isTerminal = true ∧
    (jobAfter (run_content_brief envSearchFail "slot games") 5).status
        = (jobAfter (run_content_brief envSearchFail "slot games") 4).status ∧
    (finalJob (run_content_brief envSearchFail "slot games")).progress.length
        ≤ (jobAfter (run_content_brief envSearchFail "slot games") 4).progress.length + 1 ∧
    (jobAfter (_run_crew crewEnvOk "poker") 6).status.isTerminal = true ∧
    (jobAfter (_run_crew crewEnvOk "poker") 7).status
        = (jobAfter (_run_crew crewEnvOk "poker") 6).status ∧
    (finalJob (_run_crew crewEnvOk "poker")).progress.length
        ≤ (jobAfter (_run_crew crewEnvOk "poker") 6).progress.length + 1 :=
  ⟨by decide,
   ((progress_append_only_amended envSearchFail "slot games" crewEnvOk "poker" 4).2.1
      (by decide)).1,
   ((progress_append_only_amended envSearchFail "slot games" crewEnvOk "poker" 4).2.1
      (by decide)).2,
   by decide,
   ((progress_append_only_amended envSearchFail "slot games" crewEnvOk "poker" 6).2.2.2
      (by decide)).1,
   ((progress_append_only_amended envSearchFail "slot games" crewEnvOk "poker" 6).2.2.2
      (by decide)).2⟩

/-- C4 counterexample: in the concrete all-success run, the worker stores
`report_html` one mutation before setting status complete, so there is an
observable state where the result is present while the status is still
running — refuting "set only after a terminal status" and "present iff
status = complete at every observable state". -/
theorem result_only_after_terminal_counterexample :
    ¬ resultOnlyAfterTerminalClaim (run_content_brief envAllOk "slot games") := by decide

/-- C4 amended: for every job — covering both the brief worker
`run_content_brief` and the research worker `_run_crew` — at every
observable state at most one of result/error is set; the error field is set
only while the status is error (as claimed); the result field, however,
becomes set exactly one mutation before the status turns complete: whenever
it is present the status is complete or becomes complete at the next
mutation; and in the final state result is present iff complete and error
present iff error. -/
theorem result_error_discipline_amended (env : Env) (kw : String)
    (cenv : CrewEnv) (g : String) (k : Nat) :
    (¬((jobAfter (run_content_brief env kw) k).report_html.isSome = true ∧
        (jobAfter (run_content_brief env kw) k).error.isSome = true)) ∧
    ((jobAfter (run_content_brief env kw) k).error.isSome = true →
        (jobAfter (run_content_brief env kw) k).status = .error) ∧
    ((jobAfter (run_content_brief env kw) k).report_html.isSome = true →
        (jobAfter (run_content_brief env kw) k).status = .complete ∨
        (jobAfter (run_content_brief env kw) (k + 1)).status = .complete) ∧
    ((finalJob (run_content_brief env kw)).report_html.isSome = true ↔
        (finalJob (run_content_brief env kw)).status = .complete) ∧
    ((finalJob (run_content_brief env kw)).error.isSome = true ↔
        (finalJob (run_content_brief env kw)).status = .error) ∧
    (¬((jobAfter (_run_crew cenv g) k).report_html.isSome = true ∧
        (jobAfter (_run_crew cenv g) k).error.isSome = true)) ∧
    ((jobAfter (_run_crew cenv g) k).error.isSome = true →
        (jobAfter (_run_crew cenv g) k).status = .error) ∧
    ((jobAfter (_run_crew cenv g) k).report_html.isSome = true →
        (jobAfter (_run_crew cenv g) k).status = .complete ∨
        (jobAfter (_run_crew cenv g) (k + 1)).status = .complete) ∧
    ((finalJob (_run_crew cenv g)).report_html.isSome = true ↔
        (finalJob (_run_crew cenv g)).status = .complete) ∧
    ((finalJob (_run_crew cenv g)).error.isSome = true ↔
        (finalJob (_run_crew cenv g)).status = .error) := by
  obtain ⟨msB, hcaseB⟩ := run_content_brief_shape env kw
  obtain ⟨msC, hcaseC⟩ := run_crew_shape cenv g
  refine ⟨?_, ?_, ?_, ?_, ?_, ?_, ?_, ?_, ?_, ?_⟩
  · rcases hcaseB with ⟨e, hev⟩ | ⟨r, hev⟩
    · rw [hev, jobAfter_shape_fail]
      split_ifs <;> simp [newJob]
    · rw [hev, jobAfter_shape_done]
      split_ifs <;> simp [newJob]
  · rcases hcaseB with ⟨e, hev⟩ | ⟨r, hev⟩
    · rw [hev, jobAfter_shape_fail]
      split_ifs <;> simp [newJob]
    · rw [hev, jobAfter_shape_done]
      split_ifs <;> simp [newJob]
  · rcases hcaseB with ⟨e, hev⟩ | ⟨r, hev⟩
    · rw [hev, jobAfter_shape_fail]
      split_ifs <;> simp [newJob]
    · rw [hev]
      intro hrep
      rw [jobAfter_shape_done] at hrep
      by_cases h2 : k ≤ msB.length + 1
      · rcases Nat.eq_zero_or_pos k with rfl | hpos
        · rw [if_pos rfl] at hrep
          simp [newJob] at hrep
        · rw [if_neg (by omega), if_pos h2] at hrep
          simp at hrep
      · by_cases h3 : k = msB.length + 2
        · right
          rw [jobAfter_shape_done, if_neg (by omega), if_neg (by omega), if_neg (by omega),
            if_pos (by omega)]
        · left
          rw [jobAfter_shape_done, if_neg (by omega), if_neg (by omega), if_neg h3]
          split_ifs <;> rfl
  · rcases hcaseB with ⟨e, hev⟩ | ⟨r, hev⟩
    · rw [hev, finalJob_shape_fail]
      simp
    · rw [hev, finalJob_shape_done]
      simp
  · rcases hcaseB with ⟨e, hev⟩ | ⟨r, hev⟩
    · rw [hev, finalJob_shape_fail]
      simp
    · rw [hev, finalJob_shape_done]
      simp
  · rcases hcaseC with ⟨e, hev⟩ | ⟨r, hev⟩
    · rw [hev]
      rcases Nat.eq_zero_or_pos k with rfl | hpos
      · simp [jobAfter, jobFrom, newJob]
      · obtain ⟨k1, rfl⟩ : ∃ k1, k = k1 + 1 := ⟨k - 1, by omega⟩
        rw [jobAfter_push_cons, jobFrom_shape_fail]
        split_ifs <;> simp [startedJob]
    · rw [hev]
      rcases Nat.eq_zero_or_pos k with rfl | hpos
      · simp [jobAfter, jobFrom, newJob]
      · obtain ⟨k1, rfl⟩ : ∃ k1, k = k1 + 1 := ⟨k - 1, by omega⟩
        rw [jobAfter_push_cons, jobFrom_shape_done]
        split_ifs <;> simp [startedJob]
  · rcases hcaseC with ⟨e, hev⟩ | ⟨r, hev⟩
    · rw [hev]
      rcases Nat.eq_zero_or_pos k with rfl | hpos
      · simp [jobAfter, jobFrom, newJob]
      · obtain ⟨k1, rfl⟩ : ∃ k1, k = k1 + 1 := ⟨k - 1, by omega⟩
        rw [jobAfter_push_cons, jobFrom_shape_fail]
        split_ifs <;> simp [startedJob]
    · rw [hev]
      rcases Nat.eq_zero_or_pos k with rfl | hpos
      · simp [jobAfter, jobFrom, newJob]
      · obtain ⟨k1, rfl⟩ : ∃ k1, k = k1 + 1 := ⟨k - 1, by omega⟩
        rw [jobAfter_push_cons, jobFrom_shape_done]
        split_ifs <;> simp [startedJob]
  · rcases hcaseC with ⟨e, hev⟩ | ⟨r, hev⟩
    · rw [hev]
      rcases Nat.eq_zero_or_pos k with rfl | hpos
      · simp [jobAfter, jobFrom, newJob]
      · obtain ⟨k1, rfl⟩ : ∃ k1, k = k1 + 1 := ⟨k - 1, by omega⟩
        rw [jobAfter_push_cons, jobFrom_shape_fail]
        split_ifs <;> simp [startedJob]
    · rw [hev]
      rcases Nat.eq_zero_or_pos k with rfl | hpos
      · intro hrep
        simp [jobAfter, jobFrom, newJob] at hrep
      · obtain ⟨k1, rfl⟩ : ∃ k1, k = k1 + 1 := ⟨k - 1, by omega⟩
        rw [jobAfter_push_cons, jobAfter_push_cons]
        intro hrep
        rw [jobFrom_shape_done] at hrep
        by_cases h2 : k1 ≤ msC.length + 1
        · rcases Nat.eq_zero_or_pos k1 with rfl | hp1
          · rw [if_pos rfl] at hrep
            simp [startedJob] at hrep
          · rw [if_neg (by omega), if_pos h2] at hrep
            simp [startedJob] at hrep
        · by_cases h3 : k1 = msC.length + 2
          · right
            rw [jobFrom_shape_done, if_neg (by omega), if_neg (by omega), if_neg (by omega),
              if_pos (by omega)]
          · left
            rw [jobFrom_shape_done, if_neg (by omega), if_neg (by omega), if_neg h3]
            split_ifs <;> rfl
  · rcases hcaseC with ⟨e, hev⟩ | ⟨r, hev⟩
    · rw [hev, finalJob_push_fail]
      simp
    · rw [hev, finalJob_push_done]
      simp
  · rcases hcaseC with ⟨e, hev⟩ | ⟨r, hev⟩
    · rw [hev, finalJob_push_fail]
      simp
    · rw [hev, finalJob_push_done]
      simp

/-- Witness for `result_error_discipline_amended` at the states of concrete
runs of both workers where the result is already stored while the status is
still running. -/
theorem result_error_discipline_amended_witness :
    (jobAfter (run_content_brief envAllOk "slot games") 10).report_html.isSome = true ∧
    ((jobAfter (run_content_brief envAllOk "slot games") 10).status = .complete ∨
      (jobAfter (run_content_brief envAllOk "slot games") 11).status = .complete) ∧
    (jobAfter (_run_crew crewEnvOk "poker") 5).report_html.isSome = true ∧
    ((jobAfter (_run_crew crewEnvOk "poker") 5).status = .complete ∨
      (jobAfter (_run_crew crewEnvOk "poker") 6).status = .complete) :=
  ⟨by decide,
   (result_error_discipline_amended envAllOk "slot games" crewEnvOk "poker" 10).2.2.1
     (by decide),
   by decide,
   (result_error_discipline_amended envAllOk "slot games" crewEnvOk "poker" 5).2.2.2.2.2.2.2.1
     (by decide)⟩

/-- C8: a stream opened on a job whose status is already complete finishes
within its first poll iteration: it emits the progress replay followed by a
single complete event carrying the stored artifact, then terminates —
whatever the later store history would have been — and no heartbeat event is
ever emitted on the connection. -/
theorem stream_completed_job (job : Job) (rest : List (Option Job))
    (h : job.status = .complete) :
    stream_research_gen (some job :: rest) 0 0
        = job.progress.map SSE.progress ++ [SSE.complete job.report_html] ∧
    (stream_research_gen (some job :: rest) 0 0).countP SSE.isComplete = 1 ∧
    (stream_research_gen (some job :: rest) 0 0).countP SSE.isHeartbeat = 0 := by
  have h1 : stream_research_gen (some job :: rest) 0 0
      = job.progress.map SSE.progress ++ [SSE.complete job.report_html] := by
    cases job with
    | mk st pr rep err =>
        simp only at h
        subst h
        simp [stream_research_gen]
  refine ⟨h1, ?_, ?_⟩ <;> rw [h1] <;>
    simp [List.countP_append, List.countP_cons, List.countP_map, Function.comp,
      SSE.isComplete, SSE.isHeartbeat]

/-- Witness for `stream_completed_job` on a concrete completed job. -/
theorem stream_completed_job_witness :
    ({ status := .complete, progress := ["a", "b"], report_html := some "<html>",
       error := none } : Job).status = .complete ∧
    stream_research_gen
        [some { status := .complete, progress := ["a", "b"], report_html := some "<html>",
                error := none }] 0 0
      = [SSE.progress "a", SSE.progress "b", SSE.complete (some "<html>")] :=
  ⟨rfl,
   (stream_completed_job
      { status := .complete, progress := ["a", "b"], report_html := some "<html>",
        error := none } [] rfl).1⟩

/-- C10: the polling loops of the research stream endpoint and the
content-brief stream endpoint are behaviourally identical — on every store
history and every loop state they emit the same event sequence. -/
theorem stream_generators_equal (h : List (Option Job)) (last_idx heartbeat_counter : Nat) :
    stream_research_gen h last_idx heartbeat_counter
      = stream_content_brief_gen h last_idx heartbeat_counter := by
  induction h generalizing last_idx heartbeat_counter with
  | nil => rfl
  | cons o rest ih =>
      cases o with
      | none => rfl
      | some job =>
          simp only [stream_research_gen, stream_content_brief_gen]
          cases job.status with
          | complete => rfl
          | error => rfl
          | queued =>
              by_cases h15 : 15 ≤ heartbeat_counter + 1
              · simp [h15, ih]
              · simp [h15, ih]
          | running =>
              by_cases h15 : 15 ≤ heartbeat_counter + 1
              · simp [h15, ih]
              · simp [h15, ih]
